import Mathlib

/-!
# Verification of the media_catalog ingestion pipeline

Shallow embedding of the scrape-buffer-promote pipeline of the
media_catalog repository (`app/scrapers/binged.py`,
`app/services/metadata.py`, `app/services/ingestion.py`,
`app/db/models.py`) together with theorems settling the frozen claims
about it.

Conventions of the embedding:
* Python `None` becomes `Option.none`; Python truthiness of strings and
  integers is modelled explicitly (`truthyStr`, `truthyInt`).
* Fallible Python code (code that can raise) is embedded in
  `Except String`, the error string standing for the exception text.
* HTTP traffic is an oracle parameter: a function from the attempt
  number (or call site) to the outcome the network produced.
* The SQLAlchemy session is modelled with `autoflush=False` semantics,
  as configured in `app/db/database.py`: queries filter on the committed
  column values but return the live (session-mutated) objects; objects
  added to the session are invisible to queries until commit.
-/

set_option autoImplicit false

namespace MediaCatalog

/-! ## Dynamically-typed Python values

`app/services/ingestion.py` invokes `BingedScraper.scrape_page` with the
arguments positionally misaligned, so the embedding needs a small model
of dynamically-typed values: an argument slot can hold an `int`, a
`str`, or an `aiohttp.ClientSession`, and the arithmetic on such values
can raise `TypeError`. -/

/-- A dynamically typed Python value, as far as the claims need one. -/
inductive PyVal where
  /-- a Python `int` -/
  | int (n : Int)
  /-- a Python `str` -/
  | str (s : String)
  /-- an `aiohttp.ClientSession` object -/
  | session
  deriving DecidableEq, Repr

/-- Python `==` on the modelled values: values of different types
compare unequal without raising. -/
def pyEq : PyVal → PyVal → Bool
  | .int a, .int b => a == b
  | .str a, .str b => a == b
  | .session, .session => true
  | _, _ => false

instance : BEq PyVal := ⟨pyEq⟩

/-- Python `+` on the modelled values.  `str + int` (and the other mixed
cases) raise `TypeError`. -/
def pyAdd : PyVal → PyVal → Except String PyVal
  | .int a, .int b => .ok (.int (a + b))
  | .str a, .str b => .ok (.str (a ++ b))
  | .str _, .int _ => .error "TypeError: can only concatenate str (not \x22int\x22) to str"
  | _, _ => .error "TypeError: unsupported operand type(s) for +"

/-- Python `*` on the modelled values.  `str * int` is string
repetition and does not raise. -/
def pyMul : PyVal → PyVal → Except String PyVal
  | .int a, .int b => .ok (.int (a * b))
  | .str s, .int n => .ok (.str (String.join (List.replicate n.toNat s)))
  | .int n, .str s => .ok (.str (String.join (List.replicate n.toNat s)))
  | _, _ => .error "TypeError: unsupported operand type(s) for *"

/-- Truthiness of an optional Python string: `None` and `""` are falsy. -/
def truthyStr : Option String → Bool
  | none => false
  | some s => !s.isEmpty

/-- Truthiness of an optional Python int: `None` and `0` are falsy. -/
def truthyInt : Option Int → Bool
  | none => false
  | some n => n != 0

/-- Python `a or b` for optional strings (used for the non-destructive
merge patterns `match_data.get(k) or existing.k`). -/
def pyOrStr (a b : Option String) : Option String :=
  if truthyStr a then a else b

/-- Python `a or b` for optional ints. -/
def pyOrInt (a b : Option Int) : Option Int :=
  if truthyInt a then a else b

/-- Python `int(s)` on a character list: optional sign followed by one
or more digits (surrounding whitespace stripped); anything else raises
`ValueError`, modelled as `none`. -/
def pyIntOfChars? (cs : List Char) : Option Int :=
  let t := ((cs.dropWhile Char.isWhitespace).reverse.dropWhile Char.isWhitespace).reverse
  let signAndDigits : Bool × List Char :=
    match t with
    | '-' :: rest => (true, rest)
    | '+' :: rest => (false, rest)
    | _ => (false, t)
  let digits := signAndDigits.2
  if digits.isEmpty || !digits.all Char.isDigit then none
  else
    let v : Int := Int.ofNat (digits.foldl (fun acc c => acc * 10 + (c.toNat - 48)) 0)
    some (if signAndDigits.1 then -v else v)

/-- Python `int(s)` on a string. -/
def pyIntOfString? (s : String) : Option Int := pyIntOfChars? s.data

/-! ## Enumerations from `app/db/models.py` -/

/-- `MediaType` (`models.py` lines 20-22). -/
inductive MediaType where
  | movie
  | series
  deriving DecidableEq, Repr

/-- The `.value` string of a `MediaType` member. -/
def MediaType.val : MediaType → String
  | .movie => "movie"
  | .series => "series"

/-- `MediaType(media_type_str)` wrapped in the `try/except ValueError`
of `ingestion.py` lines 196-199: unknown strings default to `MOVIE`. -/
def mediaTypeOfStr (s : String) : MediaType :=
  if s = "movie" then .movie
  else if s = "series" then .series
  else .movie

/-- `MediaStatus` (`models.py` lines 25-30). -/
inductive MediaStatus where
  | new
  | processing
  | approved
  | available
  | ignored
  deriving DecidableEq, Repr

/-- `ScrapeStatus` (`models.py` lines 33-37). -/
inductive ScrapeStatus where
  | pending
  | processed
  | ignored
  | error
  deriving DecidableEq, Repr

end MediaCatalog

namespace MediaCatalog

/-! ## The source fetcher: `BingedScraper` (`app/scrapers/binged.py`)

`_fetch` (lines 99-155) is embedded over an oracle giving the network
outcome of each attempt.  The embedding records the sequence of
`asyncio.sleep` durations the call performs, and the number of attempts
it used, so the retry policy can be stated exactly. -/

/-- Outcome of one HTTP attempt: a 200 response carrying a parsed body,
a non-200 status code, or a network/timeout error
(`aiohttp.ClientError` / `asyncio.TimeoutError`). -/
inductive BingedHttp (α : Type) where
  | success (body : α)
  | status (code : Nat)
  | netError
  deriving DecidableEq, Repr

/-- The observable behaviour of one `_fetch` call: its return value (or
the exception it raised), the list of sleep durations in seconds, and
the number of attempts made. -/
structure FetchRun (α : Type) where
  result : Except String (Option α)
  sleeps : List Nat
  attempts : Nat
  deriving Repr

/-- The retry loop of `BingedScraper._fetch` (binged.py lines 105-155).
`remaining` is the number of attempts left, `attempt` the 1-based index
of the current attempt, `sleeps` the reversed log of sleeps so far.

* A non-`ClientSession` value in the `session` slot raises
  `AttributeError` at `session.post(...)`; the `except` clause catches
  only `aiohttp.ClientError` and `asyncio.TimeoutError`, so the
  exception propagates.
* Status 200 returns the body; 429 sleeps 60 seconds; 500/502/503/504
  just log; any other status returns `None`; a network error is caught.
* After each non-returning attempt except the last, the loop sleeps
  `2 ^ attempt` seconds; when all attempts are exhausted it returns
  `None` (line 155). -/
def binged_fetch_loop {α : Type} (session : PyVal) (oracle : Nat → BingedHttp α)
    (retries : Nat) : (remaining attempt : Nat) → (sleeps : List Nat) → FetchRun α
  | 0, attempt, sleeps => ⟨.ok none, sleeps.reverse, attempt - 1⟩
  | remaining + 1, attempt, sleeps =>
    if session != PyVal.session then
      ⟨.error "AttributeError: 'int' object has no attribute 'post'", sleeps.reverse, attempt⟩
    else
      match oracle attempt with
      | .success body => ⟨.ok (some body), sleeps.reverse, attempt⟩
      | .status code =>
        if code = 429 then
          let sleeps := 60 :: sleeps
          let sleeps := if attempt < retries then 2 ^ attempt :: sleeps else sleeps
          binged_fetch_loop session oracle retries remaining (attempt + 1) sleeps
        else if code = 500 || code = 502 || code = 503 || code = 504 then
          let sleeps := if attempt < retries then 2 ^ attempt :: sleeps else sleeps
          binged_fetch_loop session oracle retries remaining (attempt + 1) sleeps
        else
          ⟨.ok none, sleeps.reverse, attempt⟩
      | .netError =>
        let sleeps := if attempt < retries then 2 ^ attempt :: sleeps else sleeps
        binged_fetch_loop session oracle retries remaining (attempt + 1) sleeps

/-- `BingedScraper._fetch(session, url, method, data, retries)`.  The
url/method/payload do not influence the control flow being verified;
the oracle stands for the upstream server's behaviour. -/
def binged_fetch {α : Type} (session : PyVal) (oracle : Nat → BingedHttp α)
    (retries : Nat := 3) : FetchRun α :=
  binged_fetch_loop session oracle retries retries 1 []

/-- One raw listing as assembled by `scrape_page` (binged.py lines
297-308) and consumed by `IngestionService._save_raw_batch`. -/
structure RawData where
  /-- `raw_data["inferred_type"]`, stamped by `_save_raw_batch` -/
  inferred_type : Option String
  /-- `raw_data["binged_imdb_id"]`, stamped by `_save_raw_batch` when present -/
  binged_imdb_id : Option String
  /-- `raw_data["languages"]`, read back by the promotion engine -/
  languages : Option String
  /-- stands for the remaining opaque payload of the scraped item dict -/
  payload : String
  deriving DecidableEq, Repr

/-- The flat record `scrape_page` emits for one listing (binged.py
lines 297-308): `title`, `year`, `binged_url`, `binged_imdb_id`,
`platform`, `streaming_date`, `languages`, `raw_data`. -/
structure ListingItem where
  title : Option String
  year : Option PyVal
  binged_url : String
  binged_imdb_id : Option String
  platform : String
  streaming_date : Option String
  languages : Option String
  raw_data : RawData
  deriving DecidableEq, Repr

/-- `BingedScraper.scrape_page(session, page_number, category)`
(binged.py lines 199-310), embedded over dynamically-typed argument
slots because `IngestionService._scrape_phase` fills them positionally.

The body up to the page fetch is translated statement by statement:
* `binged_category = "Film" if category == "movie" else "Tv show"`,
* `start_offset = page_number * 50` (string repetition when
  `page_number` is a `str` — no error),
* the f-string of the `logger.debug` call on line 214 evaluates
  `page_number + 1`, which raises `TypeError` when `page_number` is a
  `str`,
* `data = await self._fetch(session, BINGED_URL, "POST", payload)`.

The listing assembly of lines 233-310 (genre filtering, concurrent
detail fetches, platform/date parsing) is abstracted as the `assemble`
parameter: every claim about `scrape_page` concerns the control flow
before that point, and `assemble` receives exactly the fetched page
body.  `assemble` also absorbs the `"data" not in data` half of the
guard on line 229 (it may return `[]`). -/
def scrape_page {α β : Type} (oracle : Nat → BingedHttp α) (assemble : α → List β)
    (session page_number category : PyVal) : Except String (List β) := do
  let _binged_category := if category == PyVal.str "movie" then "Film" else "Tv show"
  let _start_offset ← pyMul page_number (PyVal.int 50)
  let _page_log ← pyAdd page_number (PyVal.int 1)
  let fr := binged_fetch session oracle 3
  match fr.result with
  | .error e => .error e
  | .ok none => .ok []
  | .ok (some body) => .ok (assemble body)

end MediaCatalog

namespace MediaCatalog

/-! ## Data model (`app/db/models.py`)

Rows carry a surrogate identity (`sid` / `mid`) standing for the
SQLAlchemy object identity; queries never see uncommitted values
(`autoflush=False`), so the embedding keeps the committed column values
and the live session objects apart during a batch. -/

/-- A `ScrapedItem` row (models.py lines 40-63): the buffer table. -/
structure ScrapedItem where
  sid : Nat
  source_url : String
  title : String
  year : Int
  media_type : Option String
  platform : Option String
  raw_data : Option RawData
  scrape_status : ScrapeStatus
  error_message : Option String
  deriving DecidableEq, Repr

/-- A `MediaItem` row (models.py lines 66-104): the clean catalog. -/
structure MediaItem where
  mid : Nat
  title : Option String
  year : Option Int
  media_type : String
  language : Option String
  tmdb_id : Option Int
  imdb_id : Option String
  overview : Option String
  poster_url : Option String
  backdrop_url : Option String
  genres : List String
  binged_url : Option String
  platform : Option String
  status : MediaStatus
  deriving DecidableEq, Repr

/-- The metadata dict produced by `MetadataService` (`match_data` in
ingestion.py; the dict shape of `_format_result`, `_fetch_cinemeta`
and `normalize_binged_data`). -/
structure MatchData where
  tmdb_id : Option Int
  imdb_id : Option String
  title : Option String
  year : Option Int
  overview : Option String
  poster_url : Option String
  backdrop_url : Option String
  genres : List String
  source : String
  deriving DecidableEq, Repr

/-- The committed database state: the two tables of §3. -/
structure DB where
  scraped : List ScrapedItem
  media : List MediaItem
  deriving DecidableEq, Repr

end MediaCatalog

namespace MediaCatalog

/-! ## Buffer store reconciler: `IngestionService._save_raw_batch` and
`_parse_safe_year` (`app/services/ingestion.py` lines 21-33, 105-154) -/

/-- The first four-consecutive-digit run of a character list, as found
by `re.search(r"(\d{4})", s)` (ingestion.py line 28). -/
def findFourDigitRun : List Char → Option Int
  | a :: b :: c :: d :: rest =>
    if a.isDigit && b.isDigit && c.isDigit && d.isDigit then
      some (Int.ofNat ((((a.toNat - 48) * 10 + (b.toNat - 48)) * 10 + (c.toNat - 48)) * 10
        + (d.toNat - 48)))
    else findFourDigitRun (b :: c :: d :: rest)
  | _ => none

/-- `IngestionService._parse_safe_year(year_val)` (ingestion.py lines
21-33): falsy values give 0; ints pass through; strings are searched
for a four-digit run, then handed to `int(...)`, and a
`ValueError`/`TypeError` gives 0. -/
def parse_safe_year : Option PyVal → Int
  | none => 0
  | some (.int n) => if n == 0 then 0 else n
  | some (.str s) =>
    if s.isEmpty then 0
    else
      match findFourDigitRun s.data with
      | some y => y
      | none => (pyIntOfString? s).getD 0
  | some .session => 0

/-- The raw blob `_save_raw_batch` stores for one listing (ingestion.py
lines 127-131): the scraped item dict with `inferred_type` stamped and
`binged_imdb_id` copied in when the listing carries a truthy one. -/
def blobOf (mt : MediaType) (item : ListingItem) : RawData :=
  let raw := { item.raw_data with inferred_type := some mt.val }
  if truthyStr item.binged_imdb_id then { raw with binged_imdb_id := item.binged_imdb_id }
  else raw

/-- The mutable state of the `for item_data in items` loop of
`_save_raw_batch`: the live versions of the pre-existing rows, the rows
added to the session, the next surrogate id, and `activity_count`. -/
structure SaveState where
  live : List ScrapedItem
  added : List ScrapedItem
  nextSid : Nat
  activity : Nat
  deriving Repr

/-- One iteration of the upsert loop (ingestion.py lines 122-150).  The
existing-row map was bulk-fetched once before the loop, so membership is
tested against the committed rows (`committedScraped`), never against
rows added earlier in the same batch. -/
def save_raw_step (committedScraped : List ScrapedItem) (mt : MediaType)
    (st : SaveState) (item : ListingItem) : SaveState :=
  let url := item.binged_url
  let blob := blobOf mt item
  if committedScraped.any (fun s => s.source_url == url) then
    { st with
      live := st.live.map (fun s =>
        if s.source_url == url then
          { s with raw_data := some blob, scrape_status := ScrapeStatus.pending }
        else s)
      activity := st.activity + 1 }
  else
    { st with
      added := st.added ++ [{
        sid := st.nextSid
        source_url := url
        title := item.title.getD "Unknown"
        year := parse_safe_year item.year
        media_type := some mt.val
        platform := some item.platform
        raw_data := some blob
        scrape_status := ScrapeStatus.pending
        error_message := none }]
      nextSid := st.nextSid + 1
      activity := st.activity + 1 }

/-- Largest surrogate id in use in the buffer table. -/
def maxSid (l : List ScrapedItem) : Nat := l.foldl (fun a s => max a s.sid) 0

/-- `IngestionService._save_raw_batch(items, media_type)` (ingestion.py
lines 105-154).  Returns the committed database after the single
end-of-batch commit, together with `activity_count`. -/
def save_raw_batch (db : DB) (items : List ListingItem) (mt : MediaType) : DB × Nat :=
  if items.isEmpty then (db, 0)
  else
    let st0 : SaveState := ⟨db.scraped, [], maxSid db.scraped + 1, 0⟩
    let st := items.foldl (save_raw_step db.scraped mt) st0
    ({ db with scraped := st.live ++ st.added }, st.activity)

end MediaCatalog

namespace MediaCatalog

/-! ## Metadata resolver: `MetadataService` (`app/services/metadata.py`)

TMDB objects (search candidates and detail responses) share one dict
shape; `TmdbObj` models the keys the service reads.  The network
fetches of `search_by_query` are supplied by a `SearchOracle`. -/

/-- A TMDB search candidate or detail response, restricted to the keys
`MetadataService` reads. -/
structure TmdbObj where
  id : Option Int
  title : Option String
  name : Option String
  release_date : Option String
  first_air_date : Option String
  overview : Option String
  poster_path : Option String
  backdrop_path : Option String
  /-- `[g["name"] for g in details.get("genres", [])]` -/
  genres : List String
  /-- `some x` when the `"external_ids"` key is present, carrying its
  `imdb_id` entry -/
  external_ids : Option (Option String)
  imdb_id : Option String
  deriving DecidableEq, Repr

/-- `date_str = item.get("release_date") or item.get("first_air_date")
or ""` (metadata.py line 278). -/
def candidate_date (item : TmdbObj) : String :=
  if truthyStr item.release_date then item.release_date.getD ""
  else if truthyStr item.first_air_date then item.first_air_date.getD ""
  else ""

/-- `MetadataService._validate_match(item, target_year, media_type)`
(metadata.py lines 273-284).  `int(date_str[:4])` raises `ValueError`
on a malformed date string, hence the `Except`. -/
def validate_match (item : TmdbObj) (target_year : Int) (mt : MediaType) :
    Except String Bool :=
  if target_year == 0 then .ok true
  else
    let date_str := candidate_date item
    if date_str.isEmpty then .ok false
    else
      match pyIntOfString? (date_str.take 4) with
      | none =>
        .error ("ValueError: invalid literal for int() with base 10: '"
          ++ date_str.take 4 ++ "'")
      | some year =>
        if mt = MediaType.movie then .ok (decide ((year - target_year).natAbs ≤ 1))
        else .ok (decide (year ≤ target_year))

/-- The candidate loop of `search_by_query` (metadata.py lines
255-259): the first candidate `_validate_match` accepts, in provider
order; a `ValueError` raised by `_validate_match` propagates. -/
def best_match : List TmdbObj → Int → MediaType → Except String (Option TmdbObj)
  | [], _, _ => .ok none
  | c :: cs, target_year, mt => do
    let ok ← validate_match c target_year mt
    if ok then .ok (some c) else best_match cs target_year mt

/-- The year computation of `_format_result` (metadata.py line 309):
`int(date_str[:4]) if date_str and len(date_str) >= 4 else 0`, raising
`ValueError` when the source object's date string is at least four
characters long but its first four characters are not an int. -/
def format_year (source : TmdbObj) : Except String Int :=
  if truthyStr (pyOrStr source.release_date source.first_air_date) &&
      decide (4 ≤ ((pyOrStr source.release_date source.first_air_date).getD "").length) then
    match pyIntOfString? (((pyOrStr source.release_date source.first_air_date).getD "").take 4) with
    | none =>
      Except.error ("ValueError: invalid literal for int() with base 10: '"
        ++ ((pyOrStr source.release_date source.first_air_date).getD "").take 4 ++ "'")
    | some y => Except.ok y
  else Except.ok 0

/-- `MetadataService._format_result(session, item, media_type)`
(metadata.py lines 286-331).  `details` is the outcome of the detail
fetch (`None` when it failed). -/
def format_result (item : TmdbObj) (details : Option TmdbObj) :
    Except String MatchData := do
  let source := details.getD item
  let imdb_id : Option String :=
    match details with
    | some d =>
      match d.external_ids with
      | some ext => ext
      | none => d.imdb_id
    | none => none
  let title := pyOrStr source.title source.name
  let year ← format_year source
  Except.ok {
    tmdb_id := item.id
    imdb_id := imdb_id
    title := title
    year := some year
    overview := source.overview
    poster_url :=
      if truthyStr source.poster_path then
        some ("https://image.tmdb.org/t/p/w500" ++ source.poster_path.getD "")
      else none
    backdrop_url :=
      if truthyStr source.backdrop_path then
        some ("https://image.tmdb.org/t/p/w1280" ++ source.backdrop_path.getD "")
      else none
    genres := match details with | some d => d.genres | none => []
    source := "tmdb" }

/-- The provider responses one `search_by_query` call consumes.  Each
field is the `results` list of the corresponding `_fetch` (`none` when
the fetch failed or the response had no `results` key), and the detail
response for the accepted candidate. -/
structure SearchOracle where
  /-- first search (with the year constraint for movies) -/
  search1 : Option (List TmdbObj)
  /-- the retry without the year constraint (series only) -/
  search2 : Option (List TmdbObj)
  /-- the `/movie/{id}` or `/tv/{id}` detail fetch for the accepted candidate -/
  details : Option TmdbObj

/-- The candidate list `search_by_query` ends up iterating over
(metadata.py lines 243-253): the first response, or — when it is empty
or failed and the search is for a series — the year-free retry. -/
def search_data (o : SearchOracle) (mt : MediaType) : Option (List TmdbObj) :=
  if (o.search1.getD []).isEmpty && mt = MediaType.series then o.search2
  else o.search1

/-- `MetadataService.search_by_query(title, year, media_type)`
(metadata.py lines 231-271).  The `title`/`year` arguments only shape
the outgoing query parameters, which the oracle already accounts for;
`year` also drives candidate validation. -/
def search_by_query (o : SearchOracle) (_title : String) (year : Int)
    (mt : MediaType) : Except String (Option MatchData) := do
  let data := search_data o mt
  if (data.getD []).isEmpty then .ok none
  else
    let candidates := data.getD []
    let best ← best_match candidates year mt
    match best with
    | none => .ok none
    | some c => do
      let formatted ← format_result c o.details
      .ok (some formatted)

end MediaCatalog

namespace MediaCatalog

/-! ## Promotion engine: `IngestionService.process_scraped_items`
(`app/services/ingestion.py` lines 156-358)

The metadata service is abstracted as a `Resolver` oracle: the two
calls the engine makes, each returning the resolved dict, `None`, or
raising.  The batch state keeps the committed catalog rows (what the
`autoflush=False` queries filter on), the live session objects, the
rows added this batch (invisible to queries until commit), and the
three batch cache maps, which hold object references (modelled by
surrogate ids). -/

/-- The two metadata calls of ingestion.py lines 209-217, as an oracle:
`get_details_by_imdb(binged_imdb, media_type)` and
`search_by_query(title, year, media_type)`. -/
structure Resolver where
  by_imdb : String → MediaType → Except String (Option MatchData)
  by_query : String → Int → MediaType → Except String (Option MatchData)

/-- The per-batch mutable state of the promotion loop. -/
structure BatchState where
  /-- live session objects for the committed catalog rows (same `mid`s,
  same order as the committed list) -/
  live : List MediaItem
  /-- rows added to the session during this batch -/
  added : List MediaItem
  /-- `batch_tmdb_map` -/
  tmdbMap : List (Int × Nat)
  /-- `batch_imdb_map` -/
  imdbMap : List (String × Nat)
  /-- `batch_url_map` -/
  urlMap : List (String × Nat)
  /-- next surrogate id for a row created this batch -/
  nextMid : Nat
  /-- per-record status outcome, newest first: `(sid, status, error_message)` -/
  scrapedOut : List (Nat × ScrapeStatus × Option String)
  deriving Repr

/-- The live session object behind a surrogate id. -/
def BatchState.item? (st : BatchState) (mid : Nat) : Option MediaItem :=
  (st.live ++ st.added).find? (fun m => m.mid == mid)

/-- Mutate the session object with the given surrogate id. -/
def BatchState.updItem (st : BatchState) (mid : Nat) (f : MediaItem → MediaItem) :
    BatchState :=
  { st with
    live := st.live.map (fun m => if m.mid == mid then f m else m)
    added := st.added.map (fun m => if m.mid == mid then f m else m) }

/-- A `select(MediaItem).where(pred)...first()` under `autoflush=False`:
the predicate is evaluated on the committed column values, and the
session's (possibly mutated) object is returned for the matched row;
rows added this batch are invisible. -/
def dbFirst (committed : List MediaItem) (st : BatchState)
    (pred : MediaItem → Bool) : Option MediaItem :=
  match committed.find? pred with
  | none => none
  | some row => st.item? row.mid

/-- Register a catalog row in the three batch cache maps under whichever
keys it currently populates (ingestion.py lines 262-271 and 331-337). -/
def registerInMaps (st : BatchState) (m : MediaItem) : BatchState :=
  let st :=
    if truthyInt m.tmdb_id then { st with tmdbMap := (m.tmdb_id.getD 0, m.mid) :: st.tmdbMap }
    else st
  let st :=
    if truthyStr m.imdb_id then { st with imdbMap := (m.imdb_id.getD "", m.mid) :: st.imdbMap }
    else st
  if truthyStr m.binged_url then { st with urlMap := (m.binged_url.getD "", m.mid) :: st.urlMap }
  else st

/-- Steps 1-2 of the per-record algorithm (ingestion.py lines 189-220):
extract the kind, the languages and the metadata match.  A `None`
payload raises `AttributeError` at one of the `raw.get(...)` calls
(line 193 or 201); the resolver oracle may itself raise.  No session
state is mutated before this point. -/
def extract_and_resolve (R : Resolver) (scraped : ScrapedItem) :
    Except String (MediaType × String × Option MatchData) := do
  match scraped.raw_data with
  | none => .error "AttributeError: 'NoneType' object has no attribute 'get'"
  | some raw =>
    let media_type_str :=
      if truthyStr scraped.media_type then scraped.media_type.getD ""
      else raw.inferred_type.getD "movie"
    let mt := mediaTypeOfStr media_type_str
    let languages := raw.languages.getD ""
    let first ←
      if truthyStr raw.binged_imdb_id then R.by_imdb (raw.binged_imdb_id.getD "") mt
      else Except.ok none
    let md ←
      match first with
      | some m => Except.ok (some m)
      | none => R.by_query scraped.title scraped.year mt
    Except.ok (mt, languages, md)

/-- Step 4 (ingestion.py lines 222-271): find the matching catalog row.
Order: batch cache by resolved tmdb id, else by resolved imdb id, else
the url batch cache, else a database lookup by the resolved ids
(`or_` across whichever are truthy, first row wins), else a database
lookup by source url.  A row found in the database is registered in the
batch maps under its current keys.  Returns the matched surrogate id
(if any) and the updated state. -/
def find_existing (committed : List MediaItem) (st : BatchState)
    (md : Option MatchData) (src_url : String) : Option Nat × BatchState :=
  let cacheHit : Option Nat :=
    match md with
    | some m =>
      if truthyInt m.tmdb_id && (List.lookup (m.tmdb_id.getD 0) st.tmdbMap).isSome then
        List.lookup (m.tmdb_id.getD 0) st.tmdbMap
      else if truthyStr m.imdb_id && (List.lookup (m.imdb_id.getD "") st.imdbMap).isSome then
        List.lookup (m.imdb_id.getD "") st.imdbMap
      else none
    | none => none
  let cacheHit :=
    match cacheHit with
    | some mid => some mid
    | none => List.lookup src_url st.urlMap
  match cacheHit with
  | some mid => (some mid, st)
  | none =>
    let dbItem : Option MediaItem :=
      match md with
      | some m =>
        if truthyInt m.tmdb_id || truthyStr m.imdb_id then
          dbFirst committed st (fun c =>
            (truthyInt m.tmdb_id && c.tmdb_id == m.tmdb_id) ||
            (truthyStr m.imdb_id && c.imdb_id == m.imdb_id))
        else none
      | none => none
    let dbItem :=
      match dbItem with
      | some it => some it
      | none => dbFirst committed st (fun c => c.binged_url == some src_url)
    match dbItem with
    | some it => (some it.mid, registerInMaps st it)
    | none => (none, st)

/-- Step 5 (ingestion.py lines 273-303): merge a record into an
existing catalog row.  With resolved metadata, each of tmdb id, imdb
id, overview, poster and backdrop is replaced only when the resolved
value is truthy (`match_data.get(k) or existing.k`); a truthy
`languages` overwrites the language; platform and source url are always
overwritten; the status is forced to APPROVED. -/
def merge_into (md : Option MatchData) (languages : String) (scraped : ScrapedItem)
    (m : MediaItem) : MediaItem :=
  let m :=
    match md with
    | some d =>
      { m with
        tmdb_id := pyOrInt d.tmdb_id m.tmdb_id
        imdb_id := pyOrStr d.imdb_id m.imdb_id
        overview := pyOrStr d.overview m.overview
        poster_url := pyOrStr d.poster_url m.poster_url
        backdrop_url := pyOrStr d.backdrop_url m.backdrop_url }
    | none => m
  let m := if languages.isEmpty then m else { m with language := some languages }
  { m with
    platform := scraped.platform
    binged_url := some scraped.source_url
    status := MediaStatus.approved }

/-- Step 6 (ingestion.py lines 305-327): create a new catalog row for
an unmatched record. -/
def create_new (mid : Nat) (md : Option MatchData) (mt : MediaType)
    (languages : String) (scraped : ScrapedItem) : MediaItem :=
  { mid := mid
    title := match md with | some d => d.title | none => some scraped.title
    year := match md with | some d => d.year | none => some scraped.year
    media_type := mt.val
    language := some languages
    tmdb_id := match md with | some d => d.tmdb_id | none => none
    imdb_id := match md with | some d => d.imdb_id | none => none
    overview := match md with | some d => d.overview | none => none
    poster_url := match md with | some d => d.poster_url | none => none
    backdrop_url := match md with | some d => d.backdrop_url | none => none
    genres := match md with | some d => d.genres | none => []
    binged_url := some scraped.source_url
    platform := scraped.platform
    status := if md.isSome then MediaStatus.approved else MediaStatus.new }

/-- One iteration of the `for scraped in pending_items` loop
(ingestion.py lines 187-345): the whole record body runs under a
`try`; on success the record is marked PROCESSED — line 340 writes only
`scrape_status`, so the record's `error_message` keeps whatever value it
already had (a stale text from an earlier failed run is NOT cleared) —
and on an exception it is marked ERROR with the exception text, and the
loop continues.  The success outcome therefore carries the record's
existing `error_message` unchanged.  All the modelled raise points
precede any session mutation. -/
def process_one (R : Resolver) (committed : List MediaItem) (st : BatchState)
    (scraped : ScrapedItem) : BatchState :=
  match extract_and_resolve R scraped with
  | .error e =>
    { st with scrapedOut := (scraped.sid, ScrapeStatus.error, some e) :: st.scrapedOut }
  | .ok (mt, languages, md) =>
    let found := find_existing committed st md scraped.source_url
    let st := found.2
    let st :=
      match found.1 with
      | some mid => st.updItem mid (merge_into md languages scraped)
      | none =>
        let nm := create_new st.nextMid md mt languages scraped
        let st := { st with added := st.added ++ [nm], nextMid := st.nextMid + 1 }
        registerInMaps st nm
    { st with
      scrapedOut := (scraped.sid, ScrapeStatus.processed, scraped.error_message)
        :: st.scrapedOut }

/-- Largest surrogate id in use in the catalog table. -/
def maxMid (l : List MediaItem) : Nat := l.foldl (fun a m => max a m.mid) 0

/-- One batch (ingestion.py lines 179-350): fresh batch caches, the
record loop, then the single end-of-batch commit that lands every
record's status transition and every catalog mutation together.  The
commit writes each outcome's status and message; a success outcome
carries the record's existing message, so committing it is the same
write-nothing-to-`error_message` behaviour as the source's success
path. -/
def run_batch (R : Resolver) (db : DB) (pending : List ScrapedItem) : DB :=
  let st0 : BatchState :=
    { live := db.media, added := [], tmdbMap := [], imdbMap := [], urlMap := []
      nextMid := maxMid db.media + 1, scrapedOut := [] }
  let st := pending.foldl (process_one R db.media) st0
  { scraped := db.scraped.map (fun s =>
      match List.lookup s.sid st.scrapedOut with
      | some out => { s with scrape_status := out.1, error_message := out.2 }
      | none => s)
    media := st.live ++ st.added }

/-- `select(ScrapedItem).where(scrape_status == PENDING).limit(50)`
(ingestion.py lines 167-171). -/
def select_pending (db : DB) : List ScrapedItem :=
  (db.scraped.filter (fun s => s.scrape_status == ScrapeStatus.pending)).take 50

/-- The `while True` drain loop (ingestion.py lines 165-350), with
explicit fuel: each non-empty batch strictly decreases the number of
PENDING rows, so `db.scraped.length` rounds always suffice. -/
def drain_loop (R : Resolver) : Nat → DB → DB
  | 0, db => db
  | fuel + 1, db =>
    let pending := select_pending db
    if pending.isEmpty then db
    else drain_loop R fuel (run_batch R db pending)

/-- `IngestionService.process_scraped_items()` (ingestion.py lines
156-358). -/
def process_scraped_items (R : Resolver) (db : DB) : DB :=
  drain_loop R db.scraped.length db

/-! ## Orchestration: `_scrape_phase` and `run_daily_scan`
(`app/services/ingestion.py` lines 46-103) -/

/-- `category_str = "movie" if media_type == MediaType.MOVIE else
"series"` (ingestion.py line 82). -/
def category_str (mt : MediaType) : String :=
  if mt = MediaType.movie then "movie" else "series"

/-- The page loop of `_scrape_phase` (ingestion.py lines 85-103).  The
scraper is invoked exactly as on line 89 — `scrape_page(page_num,
category_str)` — which binds the integer page to the `session` slot and
the category string to the `page_number` slot, leaving `category` at
its default `"movie"`.  A raised exception propagates (there is no
`try` in the phase). -/
def scrape_phase_loop {α : Type} (pageOracle : Nat → Nat → BingedHttp α)
    (assemble : α → List ListingItem) (mt : MediaType) (maint : Bool) :
    List Nat → DB → Except String DB
  | [], db => .ok db
  | page_num :: rest, db => do
    let items ← scrape_page (pageOracle page_num) assemble
      (PyVal.int page_num) (PyVal.str (category_str mt)) (PyVal.str "movie")
    if items.isEmpty then .ok db
    else
      let saved := save_raw_batch db items mt
      if maint && saved.2 == 0 then .ok saved.1
      else scrape_phase_loop pageOracle assemble mt maint rest saved.1

/-- `IngestionService._scrape_phase(media_type)` (ingestion.py lines
64-103): count the buffered rows of this kind, pick BACKFILL
(`count < 100`) or MAINTENANCE mode and the corresponding page cap,
then run the page loop. -/
def scrape_phase {α : Type} (pageOracle : Nat → Nat → BingedHttp α)
    (assemble : α → List ListingItem) (mt : MediaType)
    (maxBackfill maxMaint : Nat) (db : DB) : Except String DB :=
  let count := (db.scraped.filter (fun s => s.media_type == some mt.val)).length
  let maxPages := if count < 100 then maxBackfill else maxMaint
  let maint := !(count < 100)
  scrape_phase_loop pageOracle assemble mt maint (List.range maxPages) db

/-- `IngestionService.run_daily_scan()` (ingestion.py lines 46-62):
scrape movies, scrape series, then promote.  An exception from either
phase propagates to the caller before the promotion phase runs. -/
def run_daily_scan {α : Type} (movieOracle seriesOracle : Nat → Nat → BingedHttp α)
    (assemble : α → List ListingItem) (R : Resolver)
    (maxBackfill maxMaint : Nat) (db : DB) : Except String DB := do
  let db ← scrape_phase movieOracle assemble MediaType.movie maxBackfill maxMaint db
  let db ← scrape_phase seriesOracle assemble MediaType.series maxBackfill maxMaint db
  Except.ok (process_scraped_items R db)

end MediaCatalog

namespace MediaCatalog

/-! ## Concrete instances used by the evaluation theorems and witnesses -/

/-- The uniqueness invariant of §3 on the catalog: no two rows share a
non-null primary (tmdb) id, nor a non-null secondary (imdb) id. -/
def ids_unique (l : List MediaItem) : Prop :=
  l.Pairwise (fun a b =>
    (a.tmdb_id = none ∨ b.tmdb_id = none ∨ a.tmdb_id ≠ b.tmdb_id) ∧
    (a.imdb_id = none ∨ b.imdb_id = none ∨ a.imdb_id ≠ b.imdb_id))

/-- An empty raw payload (no inferred type, no imdb id, no languages). -/
def exRawEmpty : RawData := ⟨none, none, none, ""⟩

/-- Catalog row holding only the secondary id `tt0000001`. -/
def exItemImdb : MediaItem :=
  ⟨1, some "E1", some 2020, "movie", none, none, some "tt0000001", none, none, none, [],
    some "a", none, MediaStatus.new⟩

/-- Catalog row holding only the primary id 5. -/
def exItemTmdb : MediaItem :=
  ⟨2, some "E2", some 2021, "movie", none, some 5, none, none, none, none, [],
    some "b", none, MediaStatus.new⟩

/-- One PENDING buffered record with no source-native imdb id. -/
def exPending : ScrapedItem :=
  ⟨1, "u", "T", 2024, some "movie", some "Netflix", some exRawEmpty,
    ScrapeStatus.pending, none⟩

/-- Resolved metadata carrying primary id 5 and secondary id
`tt0000001` — the ids of the two distinct catalog rows above. -/
def exMatchBoth : MatchData :=
  ⟨some 5, some "tt0000001", some "T", some 2024, some "ov", none, none, [], "tmdb"⟩

/-- A resolver whose query search resolves every record to
`exMatchBoth`. -/
def exResolver : Resolver :=
  ⟨fun _ _ => .ok none, fun _ _ _ => .ok (some exMatchBoth)⟩

/-- The C1 failing input: a catalog whose two rows hold the primary and
the secondary id separately, plus the one pending record. -/
def exDbC1 : DB := ⟨[exPending], [exItemImdb, exItemTmdb]⟩

/-- The `TypeError` text of `"movie" + 1` / `"series" + 1`. -/
def concatTypeError : String :=
  "TypeError: can only concatenate str (not \x22int\x22) to str"

/-- A network oracle for pages that always times out (never consulted
before the call-site `TypeError`). -/
def exPageOracle : Nat → Nat → BingedHttp Unit := fun _ _ => BingedHttp.netError

/-- A trivial listing assembler (never consulted before the call-site
`TypeError`). -/
def exAssemble : Unit → List ListingItem := fun _ => []

/-- A buffer holding 100 movie records, putting the scrape phase in
MAINTENANCE mode. -/
def exDb100 : DB :=
  ⟨(List.range 100).map (fun i =>
    ⟨i, toString i, "t", 0, some "movie", none, none, ScrapeStatus.processed, none⟩), []⟩

/-- A resolver that never matches and never raises. -/
def exResolverNone : Resolver :=
  ⟨fun _ _ => .ok none, fun _ _ _ => .ok none⟩

/-- Upstream behaviour for C8: a 429 on the first attempt, success on
the second. -/
def exOracle429 : Nat → BingedHttp Unit := fun a => if a == 1 then .status 429 else .success ()

/-- Upstream behaviour for C8: every attempt answers 500. -/
def exOracle500 : Nat → BingedHttp Unit := fun _ => .status 500

/-- Upstream behaviour for C8: every attempt times out. -/
def exOracleNet : Nat → BingedHttp Unit := fun _ => .netError

/-- Upstream behaviour for C8: a 500 on the first attempt, success on
the second. -/
def exOracle500Once : Nat → BingedHttp Unit := fun a => if a == 1 then .status 500 else .success ()

/-- A search candidate with primary id 7 and the given release date. -/
def exCand (d : String) : TmdbObj :=
  ⟨some 7, some "t", none, some d, none, none, none, none, [], none, none⟩

/-- Provider responses whose single candidate carries a malformed,
non-numeric release date. -/
def exOracleBadDate : SearchOracle := ⟨some [exCand "unknown-date"], none, none⟩

/-- A buffered record whose row already exists for url `"u"`. -/
def exExistingRec : ScrapedItem :=
  ⟨1, "u", "Old Title", 2020, some "movie", some "Zee5", some exRawEmpty,
    ScrapeStatus.processed, none⟩

/-- A re-scraped listing for url `"u"` with fresh externally-observed
fields. -/
def exNewListing : ListingItem :=
  ⟨some "New Title", some (.int 2024), "u", none, "Netflix", none, some "Hindi",
    ⟨none, none, some "Hindi", "payload-2"⟩⟩

end MediaCatalog

namespace MediaCatalog

/-! ## Helper definitions for the specification statements -/

/-- The Boolean acceptance verdict of `_validate_match`, defined for
candidates whose validation does not raise (`false` on a raise). -/
def validate_accepts (c : TmdbObj) (target_year : Int) (mt : MediaType) : Bool :=
  match validate_match c target_year mt with
  | .ok b => b
  | .error _ => false

/-- A TMDB object has a well-formed date: its effective date string is
either empty or starts with four characters `int(...)` accepts. -/
def well_formed_date (c : TmdbObj) : Prop :=
  candidate_date c = "" ∨ (pyIntOfString? ((candidate_date c).take 4)).isSome = true

/-- The per-row effect of one `_save_raw_batch` call on a pre-existing
buffer row, as a function of the batch (used to state the amended C5):
the row matched by a listing's url gets that listing's payload and a
PENDING status; every other row is untouched. -/
def upsert_update (committed : List ScrapedItem) (items : List ListingItem)
    (mt : MediaType) (s : ScrapedItem) : ScrapedItem :=
  match items.find? (fun i => i.binged_url == s.source_url) with
  | some i =>
    if committed.any (fun c => c.source_url == i.binged_url) then
      { s with raw_data := some (blobOf mt i), scrape_status := ScrapeStatus.pending }
    else s
  | none => s

/-- Number of PENDING rows in the buffer table. -/
def pending_count (db : DB) : Nat :=
  (db.scraped.filter (fun s => s.scrape_status == ScrapeStatus.pending)).length

/-- The status entry one record contributes to the batch: PROCESSED on
success — with the record's pre-existing `error_message` carried along
unchanged, since ingestion.py line 340 writes only `scrape_status` and
nothing ever clears a stale message — and ERROR with the captured text
when its processing raised.  The entry depends only on the record and
the resolver, not on the batch state. -/
def record_outcome (R : Resolver) (s : ScrapedItem) : Nat × ScrapeStatus × Option String :=
  match extract_and_resolve R s with
  | .ok _ => (s.sid, ScrapeStatus.processed, s.error_message)
  | .error e => (s.sid, ScrapeStatus.error, some e)

/-- The new PENDING buffer row `_save_raw_batch` inserts for a listing
with no pre-existing row (ingestion.py lines 139-148). -/
def new_buffer_row (nextSid : Nat) (mt : MediaType) (i : ListingItem) : ScrapedItem where
  sid := nextSid
  source_url := i.binged_url
  title := i.title.getD "Unknown"
  year := parse_safe_year i.year
  media_type := some mt.val
  platform := some i.platform
  raw_data := some (blobOf mt i)
  scrape_status := ScrapeStatus.pending
  error_message := none

/-! ## Further concrete instances for witnesses -/

/-- A PENDING record whose payload is `None`: its processing raises
`AttributeError` at `raw.get(...)`. -/
def exRecBadPayload : ScrapedItem :=
  ⟨2, "u2", "T2", 2024, some "movie", none, none, ScrapeStatus.pending, none⟩

/-- A buffer with one well-formed and one payload-less PENDING record. -/
def exDbC10 : DB := ⟨[exPending, exRecBadPayload], []⟩

/-- A candidate list whose first candidate fails year validation for
target 2024 and whose second passes. -/
def exCands : List TmdbObj := [exCand "2027-01-01", exCand "2023-07-01"]

/-- Provider responses with well-formed dates whose only candidate
fails movie validation against target year 2024. -/
def exOracleGood : SearchOracle := ⟨some [exCand "1990-01-01"], none, none⟩

/-- A listing for a url (`"v"`) with no pre-existing buffer row. -/
def exFreshListing : ListingItem :=
  ⟨some "Fresh", some (.str "2025"), "v", some "tt0000009", "Zee5", none, some "Tamil",
    ⟨none, none, some "Tamil", "payload-3"⟩⟩

/-! ## Theorems for the claims -/

/-- C1: the promotion drain does NOT preserve the catalog id-uniqueness
invariant.  The starting catalog `[exItemImdb, exItemTmdb]` satisfies
the invariant (no two rows share a non-null primary or secondary id),
yet after draining one PENDING record whose resolved metadata carries
primary id 5 (held by `exItemTmdb`) and secondary id `tt0000001` (held
by `exItemImdb`), the `or_` database lookup matches `exItemImdb` first
and the merge copies primary id 5 onto it, so two rows end up carrying
primary id 5.  (On a real database the batch commit would instead raise
`IntegrityError` against the unique constraint of models.py line 83 —
the constraint the batch caching is documented to prevent.) -/
theorem c1_duplicate_primary_id :
    ids_unique exDbC1.media ∧
    ((process_scraped_items exResolver exDbC1).media.filter
      (fun m => m.tmdb_id == some 5)).length = 2 := by
  exact ⟨by unfold ids_unique; decide, rfl⟩

/-- C6: the scrape-mode policy is unreachable at runtime.  In BACKFILL
mode (empty buffer, count 0 < 100, page cap 5) as well as in
MAINTENANCE mode (100 buffered movie records, page cap 1), the phase
raises `TypeError` from the misbound `scrape_page` call before issuing
any request or saving anything, instead of scanning pages. -/
theorem c6_scrape_mode_policy_unreachable :
    scrape_phase exPageOracle exAssemble MediaType.movie 5 1 (⟨[], []⟩ : DB) =
      .error concatTypeError ∧
    scrape_phase exPageOracle exAssemble MediaType.movie 5 1 exDb100 =
      .error concatTypeError := by
  exact ⟨rfl, rfl⟩

/-- C8 counterexample: a 429 answered on the first attempt followed by
a success on the second involves TWO waits — the fixed 60-second
cooldown AND the `2 ^ 1`-second exponential backoff (binged.py falls
through from the 429 branch to the backoff on line 152) — not exactly
one wait as the claim states. -/
theorem c8_counterexample :
    (binged_fetch PyVal.session exOracle429 3).result = .ok (some ()) ∧
    (binged_fetch PyVal.session exOracle429 3).sleeps = [60, 2] ∧
    (binged_fetch PyVal.session exOracle429 3).sleeps.length ≠ 1 := by
  exact ⟨rfl, rfl, by decide⟩

/-- C7 counterexample: a provider candidate whose `release_date` is the
malformed string `"unknown-date"`, searched with a non-zero target
year, makes `_validate_match` execute `int("unkn")`, which raises
`ValueError` through `search_by_query` to the caller instead of
returning `None`. -/
theorem c7_counterexample :
    search_by_query exOracleBadDate "Movie X" 2024 MediaType.movie =
      .error "ValueError: invalid literal for int() with base 10: 'unkn'" := by rfl

/-- C5 counterexample: re-scraping url `"u"` with a listing whose
title is `"New Title"`, year 2024 and platform `"Netflix"` leaves the
existing BufferedRecord's title `"Old Title"`, year 2020 and platform
`"Zee5"` untouched — `_save_raw_batch` overwrites only the payload and
the status, not the externally-observed fields the claim lists. -/
theorem c5_counterexample :
    ((save_raw_batch ⟨[exExistingRec], []⟩ [exNewListing] MediaType.movie).1.scraped.map
      (fun s => (s.title, s.year, s.platform))) = [("Old Title", 2020, some "Zee5")] ∧
    exNewListing.title = some "New Title" ∧
    parse_safe_year exNewListing.year = 2024 ∧
    exNewListing.platform = "Netflix" := by
  exact ⟨rfl, rfl, rfl, rfl⟩

end MediaCatalog

namespace MediaCatalog

/-- C3: non-destructive merge.  When the drain matches a buffered
record to an existing catalog row and metadata was resolved, each of
primary id, secondary id, overview, poster and backdrop takes the
resolved value exactly when that value is present (non-null and
non-empty; non-zero for the primary id), and keeps the existing value
otherwise; language is overwritten exactly when the listing supplies a
non-empty one; platform and source url are always overwritten; the
status is forced to APPROVED.  The claim's concrete example — existing
overview `"A"` with resolved overview absent stays `"A"`, with resolved
`"B"` becomes `"B"` — appears as the last two conjuncts. -/
theorem c3_nondestructive_merge (d : MatchData) (languages : String)
    (scraped : ScrapedItem) (m : MediaItem) :
    ((merge_into (some d) languages scraped m).tmdb_id
      = (if truthyInt d.tmdb_id then d.tmdb_id else m.tmdb_id)) ∧
    ((merge_into (some d) languages scraped m).imdb_id
      = (if truthyStr d.imdb_id then d.imdb_id else m.imdb_id)) ∧
    ((merge_into (some d) languages scraped m).overview
      = (if truthyStr d.overview then d.overview else m.overview)) ∧
    ((merge_into (some d) languages scraped m).poster_url
      = (if truthyStr d.poster_url then d.poster_url else m.poster_url)) ∧
    ((merge_into (some d) languages scraped m).backdrop_url
      = (if truthyStr d.backdrop_url then d.backdrop_url else m.backdrop_url)) ∧
    ((merge_into (some d) languages scraped m).language
      = (if languages.isEmpty then m.language else some languages)) ∧
    (merge_into (some d) languages scraped m).platform = scraped.platform ∧
    (merge_into (some d) languages scraped m).binged_url = some scraped.source_url ∧
    (merge_into (some d) languages scraped m).status = MediaStatus.approved ∧
    (d.overview = none → m.overview = some "A" →
      (merge_into (some d) languages scraped m).overview = some "A") ∧
    (d.overview = some "B" →
      (merge_into (some d) languages scraped m).overview = some "B") := by
  unfold merge_into pyOrInt pyOrStr
  by_cases h : languages.isEmpty <;>
    simp [h, truthyStr] <;>
    exact ⟨fun h1 h2 => by simp [h1, h2],
      fun h1 => by simp [h1, show "B".isEmpty = false from rfl]⟩

end MediaCatalog

namespace MediaCatalog

/-- With a real client session, the retry loop never raises: every
branch returns a value. -/
theorem binged_fetch_loop_ok {α : Type} (oracle : Nat → BingedHttp α) (retries : Nat) :
    ∀ (remaining attempt : Nat) (sleeps : List Nat),
      ∃ v, (binged_fetch_loop PyVal.session oracle retries remaining attempt sleeps).result
        = Except.ok v := by
  intro remaining
  induction remaining with
  | zero => intro att sl; exact ⟨none, rfl⟩
  | succ n ih =>
    intro att sl
    simp only [binged_fetch_loop]
    rw [show (PyVal.session != PyVal.session) = false from rfl]
    simp only [Bool.false_eq_true, if_false]
    cases hOr : oracle att with
    | success b => exact ⟨some b, rfl⟩
    | status code =>
      by_cases h429 : code = 429
      · simp only [h429, if_true]; exact ih (att + 1) _
      · simp only [h429, if_false]
        by_cases h5 : code = 500 || code = 502 || code = 503 || code = 504
        · simp only [h5, if_true]; exact ih (att + 1) _
        · simp only [h5, if_false]
          simp only [Bool.false_eq_true, if_false]
          exact ⟨none, rfl⟩
    | netError => exact ih (att + 1) _

/-- The retry loop uses at most `attempt - 1 + remaining` attempts. -/
theorem binged_fetch_loop_attempts {α : Type} (oracle : Nat → BingedHttp α) (retries : Nat) :
    ∀ (remaining attempt : Nat) (sleeps : List Nat),
      (binged_fetch_loop PyVal.session oracle retries remaining attempt sleeps).attempts
        ≤ attempt - 1 + remaining := by
  intro remaining
  induction remaining with
  | zero => intro att sl; simp [binged_fetch_loop]
  | succ n ih =>
    intro att sl
    simp only [binged_fetch_loop]
    rw [show (PyVal.session != PyVal.session) = false from rfl]
    simp only [Bool.false_eq_true, if_false]
    cases hOr : oracle att with
    | success b => simp; omega
    | status code =>
      by_cases h429 : code = 429
      · simp only [h429, if_true]
        exact le_trans (ih (att + 1) _) (by omega)
      · simp only [h429, if_false]
        by_cases h5 : code = 500 || code = 502 || code = 503 || code = 504
        · simp only [h5, if_true]
          exact le_trans (ih (att + 1) _) (by omega)
        · simp only [h5, if_false]
          simp; omega
    | netError => exact le_trans (ih (att + 1) _) (by omega)

/-- C8 (amended): each `_fetch` call makes at most 3 attempts and never
raises (with a real session); a 429 answered by a success on the next
attempt involves TWO waits — the fixed 60-second cooldown and then the
`2 ^ attempt` exponential backoff; three consecutive 500s exhaust the
attempts, sleeping 2 and 4 seconds between them, and return no data
without raising; three network errors behave the same; a single 500
followed by a success waits `2 ^ 1` seconds only. -/
theorem c8_retry_policy_amended :
    (∀ (α : Type) (oracle : Nat → BingedHttp α),
      ∃ v, (binged_fetch PyVal.session oracle 3).result = Except.ok v) ∧
    (∀ (α : Type) (oracle : Nat → BingedHttp α),
      (binged_fetch PyVal.session oracle 3).attempts ≤ 3) ∧
    ((binged_fetch PyVal.session exOracle429 3).result = .ok (some ()) ∧
      (binged_fetch PyVal.session exOracle429 3).sleeps = [60, 2]) ∧
    ((binged_fetch PyVal.session exOracle500 3).result = .ok none ∧
      (binged_fetch PyVal.session exOracle500 3).sleeps = [2, 4]) ∧
    ((binged_fetch PyVal.session exOracleNet 3).result = .ok none ∧
      (binged_fetch PyVal.session exOracleNet 3).sleeps = [2, 4]) ∧
    ((binged_fetch PyVal.session exOracle500Once 3).result = .ok (some ()) ∧
      (binged_fetch PyVal.session exOracle500Once 3).sleeps = [2]) := by
  refine ⟨fun α oracle => binged_fetch_loop_ok oracle 3 3 1 [],
    fun α oracle => le_trans (binged_fetch_loop_attempts oracle 3 3 1 []) (by omega),
    ⟨rfl, rfl⟩, ⟨rfl, rfl⟩, ⟨rfl, rfl⟩, ⟨rfl, rfl⟩⟩

end MediaCatalog

namespace MediaCatalog

/-- Invoked as `_scrape_phase` invokes it — integer page in the
`session` slot, category string in the `page_number` slot, `category`
left at its `"movie"` default — `scrape_page` raises `TypeError` while
evaluating `page_number + 1`, before any HTTP request. -/
theorem scrape_page_misbound {α β : Type} (oracle : Nat → BingedHttp α)
    (assemble : α → List β) (p : Int) (cat : String) :
    scrape_page oracle assemble (PyVal.int p) (PyVal.str cat) (PyVal.str "movie")
      = .error concatTypeError := rfl

/-- A page loop that attempts at least one page propagates the
call-site `TypeError` and never reaches `_save_raw_batch`. -/
theorem scrape_phase_loop_misbound {α : Type} (pageOracle : Nat → Nat → BingedHttp α)
    (assemble : α → List ListingItem) (mt : MediaType) (maint : Bool)
    (p : Nat) (rest : List Nat) (db : DB) :
    scrape_phase_loop pageOracle assemble mt maint (p :: rest) db
      = .error concatTypeError := by
  simp only [scrape_phase_loop]
  rw [scrape_page_misbound]
  rfl

/-- With a positive page cap, the whole phase errors. -/
theorem scrape_phase_misbound {α : Type} (pageOracle : Nat → Nat → BingedHttp α)
    (assemble : α → List ListingItem) (mt : MediaType)
    (maxBackfill maxMaint : Nat) (db : DB)
    (hB : 0 < maxBackfill) (hM : 0 < maxMaint) :
    scrape_phase pageOracle assemble mt maxBackfill maxMaint db
      = .error concatTypeError := by
  simp only [scrape_phase]
  have hpos : 0 < (if (db.scraped.filter
      (fun s => s.media_type == some mt.val)).length < 100 then maxBackfill
      else maxMaint) := by
    split <;> assumption
  obtain ⟨k, hk⟩ := Nat.exists_eq_succ_of_ne_zero (Nat.pos_iff_ne_zero.mp hpos)
  rw [hk, List.range_succ_eq_map]
  exact scrape_phase_loop_misbound pageOracle assemble mt _ 0 _ db

/-- C2: for every page index and category, the scrape phase's
`scrape_page(page_num, category_str)` call binds the page index to the
`session` parameter and the category string to the `page_number`
parameter, so the call raises `TypeError` instead of returning
listings; consequently, with positive page caps, `_scrape_phase` raises
on its first page and `run_daily_scan` raises before buffering any
scraped listing (and before the promotion phase runs). -/
theorem c2_scrape_call_misbinding {α : Type} (pageOracle : Nat → Nat → BingedHttp α)
    (assemble : α → List ListingItem) (mt : MediaType)
    (maxBackfill maxMaint : Nat) (db : DB) (R : Resolver)
    (hB : 0 < maxBackfill) (hM : 0 < maxMaint) :
    (∀ (page_num : Nat) (cat : String),
      scrape_page (pageOracle page_num) assemble (PyVal.int page_num) (PyVal.str cat)
        (PyVal.str "movie") = .error concatTypeError) ∧
    scrape_phase pageOracle assemble mt maxBackfill maxMaint db
      = .error concatTypeError ∧
    run_daily_scan pageOracle pageOracle assemble R maxBackfill maxMaint db
      = .error concatTypeError := by
  refine ⟨fun page_num cat => scrape_page_misbound _ _ _ _, ?_, ?_⟩
  · exact scrape_phase_misbound pageOracle assemble mt maxBackfill maxMaint db hB hM
  · unfold run_daily_scan
    rw [scrape_phase_misbound pageOracle assemble MediaType.movie maxBackfill maxMaint db hB hM]
    rfl

/-- Witness for C2 at page 0, category `"movie"`/`"series"`, an empty
database and the default page caps 5 (backfill) and 1 (maintenance). -/
theorem c2_scrape_call_misbinding_witness :
    scrape_page (exPageOracle 0) exAssemble (PyVal.int 0) (PyVal.str "series")
      (PyVal.str "movie") = .error concatTypeError ∧
    scrape_phase exPageOracle exAssemble MediaType.series 5 1 (⟨[], []⟩ : DB)
      = .error concatTypeError ∧
    run_daily_scan exPageOracle exPageOracle exAssemble exResolverNone 5 1 (⟨[], []⟩ : DB)
      = .error concatTypeError := by
  have h := c2_scrape_call_misbinding exPageOracle exAssemble MediaType.series 5 1
    (⟨[], []⟩ : DB) exResolverNone (by decide) (by decide)
  exact ⟨h.1 0 "series", h.2.1, h.2.2⟩

end MediaCatalog

namespace MediaCatalog

/-- C9: candidate year validation.  For a non-zero target year and a
candidate whose effective date parses to year `y`: a movie candidate is
accepted iff `y` is within one year of the target, a series candidate
iff `y ≤ target`; with no target year (0), every candidate is accepted;
and the candidate loop of `search_by_query` accepts exactly the first
candidate in provider order passing validation. -/
theorem c9_year_validation :
    (∀ (c : TmdbObj) (t y : Int), t ≠ 0 →
      pyIntOfString? ((candidate_date c).take 4) = some y →
      (validate_match c t MediaType.movie = .ok (decide ((y - t).natAbs ≤ 1)) ∧
       validate_match c t MediaType.series = .ok (decide (y ≤ t)))) ∧
    (∀ (c : TmdbObj) (mt : MediaType), validate_match c 0 mt = .ok true) ∧
    (∀ (cs : List TmdbObj) (t : Int) (mt : MediaType),
      (∀ c ∈ cs, (validate_match c t mt).isOk = true) →
      best_match cs t mt = .ok (cs.find? (fun c => validate_accepts c t mt))) := by
  refine ⟨?_, ?_, ?_⟩
  · intro c t y ht hparse
    have hne : (candidate_date c).isEmpty = false := by
      by_contra h
      have h' : (candidate_date c).isEmpty = true := by
        cases hx : (candidate_date c).isEmpty
        · exact absurd hx h
        · rfl
      have hcd : candidate_date c = "" := (String.isEmpty_iff _).mp h'
      rw [hcd] at hparse
      rw [show pyIntOfString? ("".take 4) = none from rfl] at hparse
      exact absurd hparse (by simp)
    have ht' : (t == 0) = false := by
      cases hx : t == 0
      · rfl
      · exact absurd (by simpa using hx) ht
    constructor <;>
      simp only [validate_match, ht', Bool.false_eq_true, if_false, hne, hparse] <;> rfl
  · intro c mt
    simp only [validate_match]
    rfl
  · intro cs t mt
    induction cs with
    | nil => intro h; rfl
    | cons c cs ih =>
      intro h
      have hc := h c (List.mem_cons_self c cs)
      have hrest : ∀ x ∈ cs, (validate_match x t mt).isOk = true :=
        fun x hx => h x (List.mem_cons_of_mem c hx)
      cases hv : validate_match c t mt with
      | error e => rw [hv] at hc; exact absurd hc (by simp [Except.isOk, Except.toBool])
      | ok b =>
        simp only [best_match, hv, List.find?]
        have hacc : validate_accepts c t mt = b := by
          simp [validate_accepts, hv]
        rw [hacc]
        cases b with
        | true => rfl
        | false => simpa using ih hrest

/-- Witness for C9: target year 2024 accepts a 2023 movie, rejects a
2022 movie; accepts a 2023 series, rejects a 2025 series; target year 0
accepts anything; and the loop skips the failing first candidate of
`exCands` and accepts the second. -/
theorem c9_year_validation_witness :
    validate_match (exCand "2023-07-01") 2024 MediaType.movie = .ok true ∧
    validate_match (exCand "2022-07-01") 2024 MediaType.movie = .ok false ∧
    validate_match (exCand "2023-07-01") 2024 MediaType.series = .ok true ∧
    validate_match (exCand "2025-07-01") 2024 MediaType.series = .ok false ∧
    validate_match (exCand "2027-01-01") 0 MediaType.movie = .ok true ∧
    best_match exCands 2024 MediaType.movie = .ok (some (exCand "2023-07-01")) := by
  refine ⟨?_, ?_, ?_, ?_, ?_, ?_⟩
  · simpa using (c9_year_validation.1 (exCand "2023-07-01") 2024 2023 (by decide) (by rfl)).1
  · simpa using (c9_year_validation.1 (exCand "2022-07-01") 2024 2022 (by decide) (by rfl)).1
  · simpa using (c9_year_validation.1 (exCand "2023-07-01") 2024 2023 (by decide) (by rfl)).2
  · simpa using (c9_year_validation.1 (exCand "2025-07-01") 2024 2025 (by decide) (by rfl)).2
  · exact c9_year_validation.2.1 (exCand "2027-01-01") MediaType.movie
  · have h := c9_year_validation.2.2 exCands 2024 MediaType.movie (by decide)
    simpa using h

end MediaCatalog

namespace MediaCatalog


/-- A truthy optional string holds a non-empty string. -/
theorem truthy_getD_ne (o : Option String) (h : truthyStr o = true) : o.getD "" ≠ "" := by
  cases o with
  | none =>
    rw [show truthyStr none = false from rfl] at h
    exact Bool.noConfusion h
  | some s =>
    intro hs
    simp only [Option.getD_some] at hs
    rw [hs] at h
    rw [show truthyStr (some "") = false from rfl] at h
    exact Bool.noConfusion h

/-- When the `release_date or first_air_date` expression is truthy, its
value is the candidate's effective date string. -/
theorem pyOr_getD_eq_candidate (c : TmdbObj)
    (h : truthyStr (pyOrStr c.release_date c.first_air_date) = true) :
    (pyOrStr c.release_date c.first_air_date).getD "" = candidate_date c := by
  unfold pyOrStr candidate_date
  unfold pyOrStr at h
  by_cases h1 : truthyStr c.release_date = true
  · simp [h1]
  · have h1' : truthyStr c.release_date = false := by
      cases hx : truthyStr c.release_date
      · rfl
      · exact absurd hx h1
    rw [h1'] at h ⊢
    simp only [Bool.false_eq_true, if_false] at h ⊢
    rw [h]
    simp

/-- A well-formed candidate's validation never raises. -/
theorem validate_isOk_of_wf (c : TmdbObj) (t : Int) (mt : MediaType)
    (h : well_formed_date c) : (validate_match c t mt).isOk = true := by
  unfold validate_match
  by_cases ht : (t == 0) = true
  · rw [ht]
    rfl
  · have ht' : (t == 0) = false := by
      cases hx : t == 0
      · rfl
      · exact absurd hx ht
    rw [ht']
    simp only [Bool.false_eq_true, if_false]
    by_cases he : (candidate_date c).isEmpty = true
    · rw [he]
      rfl
    · have he' : (candidate_date c).isEmpty = false := by
        cases hx : (candidate_date c).isEmpty
        · rfl
        · exact absurd hx he
      rw [he']
      simp only [Bool.false_eq_true, if_false]
      cases h with
      | inl h0 =>
        exact absurd (by rw [h0]; rfl) he
      | inr hs =>
        obtain ⟨y, hy⟩ := Option.isSome_iff_exists.mp hs
        rw [hy]
        show (if mt = MediaType.movie then Except.ok (decide ((y - t).natAbs ≤ 1))
          else Except.ok (decide (y ≤ t))).isOk = true
        by_cases hmt : mt = MediaType.movie
        · rw [if_pos hmt]
          rfl
        · rw [if_neg hmt]
          rfl

/-- With raise-free validation on every candidate, the candidate loop
returns the first accepted candidate. -/
theorem best_match_eq_find (cs : List TmdbObj) (t : Int) (mt : MediaType)
    (h : ∀ c ∈ cs, (validate_match c t mt).isOk = true) :
    best_match cs t mt = .ok (cs.find? (fun c => validate_accepts c t mt)) := by
  induction cs with
  | nil => rfl
  | cons c cs ih =>
    have hc := h c (List.mem_cons_self c cs)
    have hrest : ∀ x ∈ cs, (validate_match x t mt).isOk = true :=
      fun x hx => h x (List.mem_cons_of_mem c hx)
    cases hv : validate_match c t mt with
    | error e => rw [hv] at hc; exact absurd hc (by simp [Except.isOk, Except.toBool])
    | ok b =>
      simp only [best_match, hv, List.find?]
      have hacc : validate_accepts c t mt = b := by
        simp [validate_accepts, hv]
      rw [hacc]
      cases b with
      | true => rfl
      | false => simpa using ih hrest

/-- An `isOk` computation returns a value. -/
theorem exists_ok_of_isOk {ε α : Type} (x : Except ε α) (h : x.isOk = true) :
    ∃ v, x = .ok v := by
  cases x with
  | ok v => exact ⟨v, rfl⟩
  | error e => exact absurd h (by simp [Except.isOk, Except.toBool])

/-- A well-formed source object's year computation never raises. -/
theorem format_year_ok (source : TmdbObj) (h : well_formed_date source) :
    (format_year source).isOk = true := by
  unfold format_year
  by_cases hcond : (truthyStr (pyOrStr source.release_date source.first_air_date) &&
      decide (4 ≤ ((pyOrStr source.release_date source.first_air_date).getD "").length))
      = true
  · have htr : truthyStr (pyOrStr source.release_date source.first_air_date) = true :=
      ((Bool.and_eq_true _ _).mp hcond).1
    have hgd := pyOr_getD_eq_candidate source htr
    have hne := truthy_getD_ne _ htr
    rw [hgd] at hne
    have hparse : (pyIntOfString? ((candidate_date source).take 4)).isSome = true := by
      cases h with
      | inl h0 => exact absurd h0 hne
      | inr hs => exact hs
    obtain ⟨y, hy⟩ := Option.isSome_iff_exists.mp hparse
    rw [hcond]
    simp only [if_true]
    rw [hgd, hy]
    rfl
  · have hcond' : (truthyStr (pyOrStr source.release_date source.first_air_date) &&
        decide (4 ≤ ((pyOrStr source.release_date source.first_air_date).getD "").length))
        = false := by
      cases hx : (truthyStr (pyOrStr source.release_date source.first_air_date) &&
          decide (4 ≤ ((pyOrStr source.release_date source.first_air_date).getD "").length))
      · rfl
      · exact absurd hx hcond
    rw [hcond']
    simp only [Bool.false_eq_true, if_false]
    rfl

/-- With well-formed dates on the candidate and the detail response,
result formatting never raises. -/
theorem format_result_ok (c : TmdbObj) (details : Option TmdbObj)
    (hc : well_formed_date c) (hd : ∀ d, details = some d → well_formed_date d) :
    (format_result c details).isOk = true := by
  have hwf : well_formed_date (details.getD c) := by
    cases hdet : details with
    | none => exact hc
    | some d => exact hd d hdet
  obtain ⟨y, hy⟩ := exists_ok_of_isOk _ (format_year_ok (details.getD c) hwf)
  unfold format_result
  simp only [hy]
  rfl

end MediaCatalog

namespace MediaCatalog

/-- C7 (amended): provided every provider candidate (and the detail
response) carries a well-formed date string — empty, or opening with
four `int()`-parseable characters — `search_by_query` never raises:
every path returns a value, and when no candidate passes validation it
returns `None`.  (The unamended claim, which also admits malformed
non-numeric date strings, is refuted by `c7_counterexample`: there the
candidate loop raises `ValueError` to the caller.) -/
theorem c7_resolver_no_raise_amended (o : SearchOracle) (title : String) (year : Int)
    (mt : MediaType)
    (h1 : ∀ c ∈ o.search1.getD [], well_formed_date c)
    (h2 : ∀ c ∈ o.search2.getD [], well_formed_date c)
    (h3 : ∀ d, o.details = some d → well_formed_date d) :
    (∃ r, search_by_query o title year mt = .ok r) ∧
    ((∀ c ∈ (search_data o mt).getD [], validate_accepts c year mt = false) →
      search_by_query o title year mt = .ok none) := by
  have hcand : ∀ c ∈ (search_data o mt).getD [], well_formed_date c := by
    intro c hc
    unfold search_data at hc
    by_cases hsw : ((o.search1.getD []).isEmpty && decide (mt = MediaType.series)) = true
    · rw [if_pos hsw] at hc; exact h2 c hc
    · rw [if_neg (by simpa using hsw)] at hc; exact h1 c hc
  have hvalid : ∀ c ∈ (search_data o mt).getD [], (validate_match c year mt).isOk = true :=
    fun c hc => validate_isOk_of_wf c year mt (hcand c hc)
  simp only [search_by_query]
  by_cases hempty : ((search_data o mt).getD []).isEmpty = true
  · simp only [hempty, if_true]
    exact ⟨⟨none, by trivial⟩, fun _ => by trivial⟩
  · have hempty' : ((search_data o mt).getD []).isEmpty = false := by
      cases hx : ((search_data o mt).getD []).isEmpty
      · rfl
      · exact absurd hx hempty
    simp only [hempty', Bool.false_eq_true, if_false]
    rw [best_match_eq_find _ _ _ hvalid]
    cases hfind : ((search_data o mt).getD []).find? (fun c => validate_accepts c year mt) with
    | none =>
      exact ⟨⟨none, by trivial⟩, fun _ => by trivial⟩
    | some c =>
      have hcmem : c ∈ (search_data o mt).getD [] := List.mem_of_find?_eq_some hfind
      obtain ⟨r, hr⟩ := exists_ok_of_isOk _
        (format_result_ok c o.details (hcand c hcmem) h3)
      constructor
      · refine ⟨some r, ?_⟩
        show Except.bind (format_result c o.details) _ = Except.ok (some r)
        rw [hr]
        rfl
      · intro hall
        have hacc := List.find?_some hfind
        rw [hall c hcmem] at hacc
        exact absurd hacc (by simp)

/-- Witness for C7 (amended) at `exOracleGood`: the single candidate's
date `"1990-01-01"` is well-formed but fails movie validation against
target year 2024, so the search returns `None` without raising. -/
theorem c7_resolver_no_raise_amended_witness :
    search_by_query exOracleGood "Movie X" 2024 MediaType.movie = .ok none := by
  have h := c7_resolver_no_raise_amended exOracleGood "Movie X" 2024 MediaType.movie
    (by
      intro c hc
      rw [show exOracleGood.search1.getD [] = [exCand "1990-01-01"] from rfl] at hc
      rcases List.mem_singleton.mp hc with rfl
      exact Or.inr rfl)
    (by
      intro c hc
      rw [show exOracleGood.search2.getD [] = ([] : List TmdbObj) from rfl] at hc
      exact absurd hc (List.not_mem_nil c))
    (by
      intro d hd
      exact absurd hd (by rw [show exOracleGood.details = none from rfl]; simp))
  refine h.2 ?_
  intro c hc
  rw [show (search_data exOracleGood MediaType.movie).getD []
      = [exCand "1990-01-01"] from rfl] at hc
  rcases List.mem_singleton.mp hc with rfl
  rfl

end MediaCatalog

namespace MediaCatalog

/-- Registering a row in the batch maps does not touch the record
outcomes. -/
theorem registerInMaps_scrapedOut (st : BatchState) (m : MediaItem) :
    (registerInMaps st m).scrapedOut = st.scrapedOut := by
  unfold registerInMaps
  split_ifs <;> rfl

/-- Mutating a catalog row does not touch the record outcomes. -/
theorem updItem_scrapedOut (st : BatchState) (mid : Nat) (f : MediaItem → MediaItem) :
    (st.updItem mid f).scrapedOut = st.scrapedOut := rfl

/-- The matching step does not touch the record outcomes. -/
theorem find_existing_scrapedOut (committed : List MediaItem) (st : BatchState)
    (md : Option MatchData) (src_url : String) :
    (find_existing committed st md src_url).2.scrapedOut = st.scrapedOut := by
  simp only [find_existing]
  repeat' split
  all_goals first
    | rfl
    | exact registerInMaps_scrapedOut _ _

/-- Each record contributes exactly its own outcome, in front of the
outcomes accumulated so far. -/
theorem process_one_scrapedOut (R : Resolver) (committed : List MediaItem)
    (st : BatchState) (s : ScrapedItem) :
    (process_one R committed st s).scrapedOut = record_outcome R s :: st.scrapedOut := by
  unfold process_one record_outcome
  cases hx : extract_and_resolve R s with
  | error e => rfl
  | ok v =>
    obtain ⟨mt, langs, md⟩ := v
    show (_ : Nat × ScrapeStatus × Option String) :: _ = _ :: st.scrapedOut
    congr 1
    cases hfound : (find_existing committed st md s.source_url).1 with
    | some mid =>
      simp only [hfound]
      rw [updItem_scrapedOut, find_existing_scrapedOut]
    | none =>
      simp only [hfound]
      rw [registerInMaps_scrapedOut]
      show (find_existing committed st md s.source_url).2.scrapedOut = st.scrapedOut
      exact find_existing_scrapedOut committed st md s.source_url

/-- The outcomes of a whole batch are the per-record outcomes, newest
first. -/
theorem batch_fold_scrapedOut (R : Resolver) (committed : List MediaItem) :
    ∀ (l : List ScrapedItem) (st : BatchState),
      (l.foldl (process_one R committed) st).scrapedOut
        = (l.map (record_outcome R)).reverse ++ st.scrapedOut := by
  intro l
  induction l with
  | nil => intro st; simp
  | cons x xs ih =>
    intro st
    simp only [List.foldl_cons, List.map_cons, List.reverse_cons]
    rw [ih, process_one_scrapedOut]
    simp

/-- No record outcome is PENDING. -/
theorem record_outcome_not_pending (R : Resolver) (s : ScrapedItem) :
    (record_outcome R s).2.1 ≠ ScrapeStatus.pending := by
  unfold record_outcome
  cases extract_and_resolve R s <;> simp

end MediaCatalog

namespace MediaCatalog

/-- A key present among an association list's keys has a lookup. -/
theorem lookup_isSome_of_key_mem {β : Type} (k : Nat) :
    ∀ (l : List (Nat × β)), k ∈ l.map Prod.fst → (List.lookup k l).isSome = true := by
  intro l
  induction l with
  | nil => intro h; exact absurd h (List.not_mem_nil k)
  | cons p rest ih =>
    intro h
    rw [List.lookup_cons]
    cases hk : k == p.1 with
    | true => simp
    | false =>
      simp only
      apply ih
      have hne : k ≠ p.1 := by simpa using hk
      rw [List.map_cons] at h
      rcases List.mem_cons.mp h with h1 | h1
      · exact absurd h1 hne
      · exact h1

/-- A successful lookup's pair belongs to the association list. -/
theorem mem_of_lookup_eq_some {β : Type} (k : Nat) (v : β) :
    ∀ (l : List (Nat × β)), List.lookup k l = some v → (k, v) ∈ l := by
  intro l
  induction l with
  | nil => intro h; exact absurd h (by simp)
  | cons p rest ih =>
    intro h
    rw [List.lookup_cons] at h
    cases hk : k == p.1 with
    | true =>
      rw [hk] at h
      simp only [Option.some_inj] at h
      have hkp : k = p.1 := by simpa using hk
      have hpe : (k, v) = p := Prod.ext hkp h.symm
      rw [hpe]
      exact List.mem_cons_self p rest
    | false =>
      rw [hk] at h
      exact List.mem_cons_of_mem p (ih h)

/-- In an association list with pairwise distinct keys, a member pair
is exactly what lookup returns. -/
theorem lookup_of_key_unique {β : Type} (k : Nat) (v : β) :
    ∀ (l : List (Nat × β)), l.Pairwise (fun a b => a.1 ≠ b.1) → (k, v) ∈ l →
      List.lookup k l = some v := by
  intro l
  induction l with
  | nil => intro _ h; exact absurd h (List.not_mem_nil _)
  | cons p rest ih =>
    intro hpw hm
    rw [List.lookup_cons]
    rcases List.mem_cons.mp hm with h1 | h1
    · rw [← h1]
      simp
    · have hne : k ≠ p.1 := by
        intro hkp
        have := (List.pairwise_cons.mp hpw).1 (k, v) h1
        rw [← hkp] at this
        exact this rfl
      have hk' : (k == p.1) = false := by
        cases hx : k == p.1
        · rfl
        · exact absurd (by simpa using hx) hne
      rw [hk']
      exact ih (List.pairwise_cons.mp hpw).2 h1

/-- Filtering a mapped list counts the elements whose image passes. -/
theorem length_filter_map_eq {α β : Type} (f : α → β) (p : β → Bool) :
    ∀ (l : List α), (List.filter p (l.map f)).length
      = (List.filter (fun a => p (f a)) l).length := by
  intro l
  induction l with
  | nil => rfl
  | cons x xs ih =>
    simp only [List.map_cons, List.filter_cons]
    cases p (f x) <;> simp [ih]

/-- Conjoining a predicate never increases the filter count. -/
theorem length_filter_and_le {α : Type} (p q : α → Bool) :
    ∀ (l : List α),
      (l.filter (fun a => p a && q a)).length ≤ (l.filter p).length := by
  intro l
  induction l with
  | nil => exact Nat.le_refl 0
  | cons x xs ih =>
    simp only [List.filter_cons]
    cases hp : p x <;> cases hq : q x <;> simp [hp, hq] <;> omega

/-- Conjoining a predicate strictly decreases the filter count as soon
as one element passes the first predicate but fails the second. -/
theorem length_filter_and_lt {α : Type} (p q : α → Bool) (x : α) :
    ∀ (l : List α), x ∈ l → p x = true → q x = false →
      (l.filter (fun a => p a && q a)).length < (l.filter p).length := by
  intro l
  induction l with
  | nil => intro h; exact absurd h (List.not_mem_nil x)
  | cons y ys ih =>
    intro hm hp hq
    simp only [List.filter_cons]
    rcases List.mem_cons.mp hm with h1 | h1
    · rw [← h1, hp, hq]
      simp only [Bool.and_false, Bool.false_eq_true, if_false, if_pos rfl]
      have := length_filter_and_le p q ys
      simp
      omega
    · cases hpy : p y <;> cases hqy : q y <;>
        simp [hpy, hqy] <;>
        have := ih h1 hp hq <;> omega

end MediaCatalog

namespace MediaCatalog

/-- A record's outcome entry is keyed by its own surrogate id. -/
theorem record_outcome_fst (R : Resolver) (s : ScrapedItem) :
    (record_outcome R s).1 = s.sid := by
  unfold record_outcome
  cases extract_and_resolve R s <;> rfl

/-- The committed buffer after one batch: every row whose id carries an
outcome gets that outcome's status and message; the rest are
untouched. -/
theorem run_batch_scraped (R : Resolver) (db : DB) (pending : List ScrapedItem) :
    (run_batch R db pending).scraped = db.scraped.map (fun s =>
      match List.lookup s.sid ((pending.map (record_outcome R)).reverse) with
      | some out => { s with scrape_status := out.1, error_message := out.2 }
      | none => s) := by
  simp only [run_batch]
  simp only [batch_fold_scrapedOut, List.append_nil]

/-- The PENDING count after one batch counts the rows that were already
PENDING and got no outcome. -/
theorem run_batch_pending_count (R : Resolver) (db : DB) :
    pending_count (run_batch R db (select_pending db))
      = (db.scraped.filter (fun s => (s.scrape_status == ScrapeStatus.pending)
          && (List.lookup s.sid
              (((select_pending db).map (record_outcome R)).reverse)).isNone)).length := by
  unfold pending_count
  rw [run_batch_scraped, length_filter_map_eq]
  congr 1
  apply List.filter_congr
  intro s hs
  cases hl : List.lookup s.sid (((select_pending db).map (record_outcome R)).reverse) with
  | none => simp [hl]
  | some out =>
    simp only [hl]
    have hmem := mem_of_lookup_eq_some _ _ _ hl
    have hnp : out.1 ≠ ScrapeStatus.pending := by
      have h2 := List.mem_reverse.mp hmem
      obtain ⟨r, _hr, heq⟩ := List.mem_map.mp h2
      have h3 := record_outcome_not_pending R r
      rw [heq] at h3
      exact h3
    simp [hnp]

/-- Each non-empty batch strictly decreases the PENDING count. -/
theorem run_batch_pending_lt (R : Resolver) (db : DB)
    (hne : (select_pending db).isEmpty = false) :
    pending_count (run_batch R db (select_pending db)) < pending_count db := by
  rw [run_batch_pending_count]
  obtain ⟨x, hx⟩ : ∃ x, x ∈ select_pending db := by
    cases hsel : select_pending db with
    | nil => rw [hsel] at hne; exact absurd hne (by simp)
    | cons a l => exact ⟨a, List.mem_cons_self a l⟩
  have h1 : x ∈ db.scraped.filter (fun s => s.scrape_status == ScrapeStatus.pending) :=
    List.take_subset 50 _ hx
  have hxdb : x ∈ db.scraped := List.mem_of_mem_filter h1
  have hxp : (x.scrape_status == ScrapeStatus.pending) = true := (List.mem_filter.mp h1).2
  have hxkey : x.sid ∈ ((((select_pending db).map (record_outcome R)).reverse).map Prod.fst) := by
    rw [List.map_reverse]
    refine List.mem_reverse.mpr ?_
    exact List.mem_map.mpr
      ⟨record_outcome R x, List.mem_map_of_mem (record_outcome R) hx, record_outcome_fst R x⟩
  have hlook := lookup_isSome_of_key_mem x.sid _ hxkey
  have hq : (List.lookup x.sid
      (((select_pending db).map (record_outcome R)).reverse)).isNone = false := by
    cases hlk : List.lookup x.sid (((select_pending db).map (record_outcome R)).reverse) with
    | none => rw [hlk] at hlook; exact absurd hlook (by simp)
    | some out => rfl
  exact length_filter_and_lt _ _ x _ hxdb hxp hq

end MediaCatalog

namespace MediaCatalog

/-- A drain invoked with nothing PENDING returns the database
untouched, whatever the fuel. -/
theorem drain_loop_noop (R : Resolver) (fuel : Nat) (db : DB)
    (h : select_pending db = []) : drain_loop R fuel db = db := by
  cases fuel with
  | zero => rfl
  | succ n =>
    simp only [drain_loop, h]
    rfl

/-- With fuel at least the PENDING count, the drain leaves nothing
PENDING selected. -/
theorem drain_loop_clears (R : Resolver) :
    ∀ (fuel : Nat) (db : DB), pending_count db ≤ fuel →
      select_pending (drain_loop R fuel db) = [] := by
  intro fuel
  induction fuel with
  | zero =>
    intro db h
    have h0 : (db.scraped.filter (fun s => s.scrape_status == ScrapeStatus.pending)) = [] :=
      List.eq_nil_of_length_eq_zero (Nat.le_zero.mp h)
    simp only [drain_loop]
    unfold select_pending
    rw [h0]
    rfl
  | succ n ih =>
    intro db h
    by_cases hp : (select_pending db).isEmpty = true
    · have hnil : select_pending db = [] := by
        cases hsel : select_pending db with
        | nil => rfl
        | cons a l => rw [hsel] at hp; exact absurd hp (by simp)
      rw [drain_loop_noop R (n + 1) db hnil]
      exact hnil
    · have hp' : (select_pending db).isEmpty = false := by
        cases hx : (select_pending db).isEmpty
        · rfl
        · exact absurd hx hp
      have hstep : drain_loop R (n + 1) db
          = drain_loop R n (run_batch R db (select_pending db)) := by
        simp only [drain_loop, hp']
        rfl
      rw [hstep]
      apply ih
      have hlt := run_batch_pending_lt R db hp'
      omega

/-- C4: idempotence of the promotion drain.  After a completed
`process_scraped_items` run no buffered record is PENDING, so a second
invocation with no new buffered input selects zero records and performs
zero catalog (and buffer) mutations — it returns the database
unchanged. -/
theorem c4_drain_idempotent (R : Resolver) (db : DB) :
    select_pending (process_scraped_items R db) = [] ∧
    (∀ s ∈ (process_scraped_items R db).scraped,
      s.scrape_status ≠ ScrapeStatus.pending) ∧
    process_scraped_items R (process_scraped_items R db) = process_scraped_items R db := by
  have h0 : pending_count db ≤ db.scraped.length := List.length_filter_le _ _
  have h1 : select_pending (process_scraped_items R db) = [] :=
    drain_loop_clears R db.scraped.length db h0
  refine ⟨h1, ?_, ?_⟩
  · intro s hs hps
    have hmem : s ∈ (process_scraped_items R db).scraped.filter
        (fun s => s.scrape_status == ScrapeStatus.pending) :=
      List.mem_filter.mpr ⟨hs, by simp [hps]⟩
    have hfil : (process_scraped_items R db).scraped.filter
        (fun s => s.scrape_status == ScrapeStatus.pending) = [] := by
      unfold select_pending at h1
      rcases List.take_eq_nil_iff.mp h1 with h | h
      · exact absurd h (by decide)
      · exact h
    rw [hfil] at hmem
    exact List.not_mem_nil s hmem
  · show drain_loop R (process_scraped_items R db).scraped.length
      (process_scraped_items R db) = process_scraped_items R db
    exact drain_loop_noop R _ _ h1

end MediaCatalog

namespace MediaCatalog

/-- C10: per-record fault isolation.  In a batch over buffered records
with distinct ids, every selected record ends the batch committed with
its own outcome: PROCESSED when its processing succeeded (the success
path of ingestion.py line 340 writes only the status, so the record's
`error_message` keeps the value it already had — a stale text from an
earlier failed run is not cleared), ERROR with the captured error text
when its processing raised — regardless of what happened to any other
record of the batch, so no single failing record aborts the batch, and
the whole batch is committed together by `run_batch`. -/
theorem c10_fault_isolation (R : Resolver) (db : DB)
    (hsid : db.scraped.Pairwise (fun a b => a.sid ≠ b.sid))
    (s : ScrapedItem) (hs : s ∈ select_pending db) :
    ∃ s' ∈ (run_batch R db (select_pending db)).scraped,
      s'.sid = s.sid ∧
      (∀ e, extract_and_resolve R s = .error e →
        s'.scrape_status = ScrapeStatus.error ∧ s'.error_message = some e) ∧
      (∀ v, extract_and_resolve R s = .ok v →
        s'.scrape_status = ScrapeStatus.processed ∧
        s'.error_message = s.error_message) := by
  have hsub : List.Sublist (select_pending db) db.scraped :=
    List.Sublist.trans (List.take_sublist 50 _) (List.filter_sublist _)
  have hpw : (select_pending db).Pairwise (fun a b => a.sid ≠ b.sid) :=
    hsid.sublist hsub
  have hmemdb : s ∈ db.scraped := hsub.subset hs
  have hentry : (s.sid, (record_outcome R s).2)
      ∈ ((select_pending db).map (record_outcome R)).reverse := by
    refine List.mem_reverse.mpr ?_
    have := List.mem_map_of_mem (record_outcome R) hs
    have heq : record_outcome R s = (s.sid, (record_outcome R s).2) :=
      Prod.ext (record_outcome_fst R s) rfl
    rw [← heq]
    exact this
  have hkeys : (((select_pending db).map (record_outcome R)).reverse).Pairwise
      (fun a b => a.1 ≠ b.1) := by
    refine List.pairwise_reverse.mpr ?_
    refine List.Pairwise.map (record_outcome R) ?_ hpw
    intro a b hab
    rw [record_outcome_fst, record_outcome_fst]
    exact fun h => hab h.symm
  have hlook : List.lookup s.sid (((select_pending db).map (record_outcome R)).reverse)
      = some (record_outcome R s).2 :=
    lookup_of_key_unique _ _ _ hkeys hentry
  rw [run_batch_scraped]
  refine ⟨_, List.mem_map_of_mem _ hmemdb, ?_⟩
  rw [hlook]
  refine ⟨rfl, ?_, ?_⟩
  · intro e he
    have : (record_outcome R s).2 = (ScrapeStatus.error, some e) := by
      unfold record_outcome
      rw [he]
    rw [this]
    exact ⟨rfl, rfl⟩
  · intro v hv
    have : (record_outcome R s).2 = (ScrapeStatus.processed, s.error_message) := by
      unfold record_outcome
      rw [hv]
    rw [this]
    exact ⟨rfl, rfl⟩

/-- Witness for C10 on `exDbC10`: the record with a `None` payload
raises `AttributeError` and is marked ERROR with that text; the
well-formed record resolves (to no match) and is marked PROCESSED with
its (empty) error message untouched; both in the same batch. -/
theorem c10_fault_isolation_witness :
    (∃ s' ∈ (run_batch exResolverNone exDbC10 (select_pending exDbC10)).scraped,
      s'.sid = exRecBadPayload.sid ∧
      (∀ e, extract_and_resolve exResolverNone exRecBadPayload = .error e →
        s'.scrape_status = ScrapeStatus.error ∧ s'.error_message = some e) ∧
      (∀ v, extract_and_resolve exResolverNone exRecBadPayload = .ok v →
        s'.scrape_status = ScrapeStatus.processed ∧
        s'.error_message = exRecBadPayload.error_message)) ∧
    (∃ s' ∈ (run_batch exResolverNone exDbC10 (select_pending exDbC10)).scraped,
      s'.sid = exPending.sid ∧
      (∀ e, extract_and_resolve exResolverNone exPending = .error e →
        s'.scrape_status = ScrapeStatus.error ∧ s'.error_message = some e) ∧
      (∀ v, extract_and_resolve exResolverNone exPending = .ok v →
        s'.scrape_status = ScrapeStatus.processed ∧
        s'.error_message = exPending.error_message)) := by
  constructor
  · exact c10_fault_isolation exResolverNone exDbC10 (by decide) exRecBadPayload (by decide)
  · exact c10_fault_isolation exResolverNone exDbC10 (by decide) exPending (by decide)

end MediaCatalog

namespace MediaCatalog

/-- Every listing counts as activity, update or insert alike. -/
theorem save_fold_activity (comm : List ScrapedItem) (mt : MediaType) :
    ∀ (items : List ListingItem) (st : SaveState),
      (items.foldl (save_raw_step comm mt) st).activity = st.activity + items.length := by
  intro items
  induction items with
  | nil => intro st; simp
  | cons i rest ih =>
    intro st
    rw [List.foldl_cons, ih]
    have hstep : (save_raw_step comm mt st i).activity = st.activity + 1 := by
      simp only [save_raw_step]
      split <;> rfl
    rw [hstep]
    simp [List.length_cons]
    omega

/-- Rows added to the session stay in the session. -/
theorem save_fold_added_mono (comm : List ScrapedItem) (mt : MediaType) :
    ∀ (items : List ListingItem) (st : SaveState) (n : ScrapedItem),
      n ∈ st.added → n ∈ (items.foldl (save_raw_step comm mt) st).added := by
  intro items
  induction items with
  | nil => intro st n h; exact h
  | cons i rest ih =>
    intro st n h
    rw [List.foldl_cons]
    refine ih _ n ?_
    simp only [save_raw_step]
    split
    · exact h
    · exact List.mem_append_left _ h

/-- A listing with no pre-existing row inserts a new PENDING record
carrying the listing's fields. -/
theorem save_fold_added_mem (comm : List ScrapedItem) (mt : MediaType) :
    ∀ (items : List ListingItem) (st : SaveState) (i : ListingItem),
      i ∈ items → (comm.any (fun c => c.source_url == i.binged_url)) = false →
      ∃ n ∈ (items.foldl (save_raw_step comm mt) st).added,
        n.source_url = i.binged_url ∧ n.title = i.title.getD "Unknown" ∧
        n.year = parse_safe_year i.year ∧ n.media_type = some mt.val ∧
        n.platform = some i.platform ∧ n.raw_data = some (blobOf mt i) ∧
        n.scrape_status = ScrapeStatus.pending ∧ n.error_message = none := by
  intro items
  induction items with
  | nil => intro st i hi; exact absurd hi (List.not_mem_nil i)
  | cons j rest ih =>
    intro st i hi hcond
    rw [List.foldl_cons]
    rcases List.mem_cons.mp hi with h1 | h1
    · subst h1
      have hmem : new_buffer_row st.nextSid mt i
          ∈ (List.foldl (save_raw_step comm mt) (save_raw_step comm mt st i) rest).added := by
        refine save_fold_added_mono comm mt rest _ _ ?_
        simp only [save_raw_step, hcond]
        simp only [Bool.false_eq_true, if_false]
        exact List.mem_append_right _ (List.mem_singleton.mpr rfl)
      exact ⟨new_buffer_row st.nextSid mt i, hmem, rfl, rfl, rfl, rfl, rfl, rfl, rfl, rfl⟩
    · exact ih _ i h1 hcond

end MediaCatalog

namespace MediaCatalog

/-- A listing whose url differs from the row's is skipped by the
per-row update. -/
theorem upsert_skip (comm : List ScrapedItem) (mt : MediaType) (rest : List ListingItem)
    (i : ListingItem) (s : ScrapedItem) (hne : (i.binged_url == s.source_url) = false) :
    upsert_update comm (i :: rest) mt s = upsert_update comm rest mt s := by
  unfold upsert_update
  rw [List.find?_cons_of_neg _ (by simp [hne])]

/-- A listing whose url matches the row's drives the per-row update. -/
theorem upsert_hit (comm : List ScrapedItem) (mt : MediaType) (rest : List ListingItem)
    (i : ListingItem) (s : ScrapedItem) (heq : i.binged_url = s.source_url) :
    upsert_update comm (i :: rest) mt s
      = if (comm.any fun c => c.source_url == i.binged_url) = true then
          { s with raw_data := some (blobOf mt i), scrape_status := ScrapeStatus.pending }
        else s := by
  unfold upsert_update
  rw [List.find?_cons_of_pos _ (by simp [heq])]

/-- A row whose url is hit by no listing of the batch is untouched. -/
theorem upsert_none (comm : List ScrapedItem) (mt : MediaType) (rest : List ListingItem)
    (s' : ScrapedItem) (hnone : ∀ j ∈ rest, (j.binged_url == s'.source_url) = false) :
    upsert_update comm rest mt s' = s' := by
  unfold upsert_update
  rw [List.find?_eq_none.mpr (fun j hj => by simp [hnone j hj])]

/-- The live rows after the whole upsert loop: each pre-existing row is
transformed by the (unique, thanks to distinct urls) listing matching
its url. -/
theorem save_fold_live (comm : List ScrapedItem) (mt : MediaType) :
    ∀ (items : List ListingItem) (st : SaveState),
      items.Pairwise (fun a b => a.binged_url ≠ b.binged_url) →
      (items.foldl (save_raw_step comm mt) st).live
        = st.live.map (upsert_update comm items mt) := by
  intro items
  induction items with
  | nil =>
    intro st _
    have h : ∀ s ∈ st.live, upsert_update comm [] mt s = s :=
      fun s _ => upsert_none comm mt [] s (fun j hj => absurd hj (List.not_mem_nil j))
    simp only [List.foldl_nil]
    rw [List.map_congr_left h]
    simp
  | cons i rest ih =>
    intro st hpw
    obtain ⟨hhead, htail⟩ := List.pairwise_cons.mp hpw
    rw [List.foldl_cons, ih _ htail]
    by_cases hcond : (comm.any fun c => c.source_url == i.binged_url) = true
    · have hstep : (save_raw_step comm mt st i).live = st.live.map (fun s =>
          if (s.source_url == i.binged_url) = true then
            { s with raw_data := some (blobOf mt i), scrape_status := ScrapeStatus.pending }
          else s) := by
        simp only [save_raw_step, hcond, if_true]
      rw [hstep, List.map_map]
      apply List.map_congr_left
      intro s _
      simp only [Function.comp]
      by_cases hbe : (i.binged_url == s.source_url) = true
      · have heq : i.binged_url = s.source_url := by simpa using hbe
        have hbe2 : (s.source_url == i.binged_url) = true := by simp [heq]
        rw [hbe2, if_pos rfl, upsert_hit comm mt rest i s heq, if_pos hcond]
        refine upsert_none comm mt rest _ (fun j hj => ?_)
        show (j.binged_url == s.source_url) = false
        have hne2 : j.binged_url ≠ s.source_url := by
          rw [← heq]
          exact fun hx => (hhead j hj) hx.symm
        cases hx : j.binged_url == s.source_url
        · rfl
        · exact absurd (by simpa using hx) hne2
      · have hbe' : (i.binged_url == s.source_url) = false := by
          cases hx : i.binged_url == s.source_url
          · rfl
          · exact absurd hx hbe
        have hne : i.binged_url ≠ s.source_url := by simpa using hbe'
        have hbe2 : (s.source_url == i.binged_url) = false := by
          cases hx : s.source_url == i.binged_url
          · rfl
          · exact absurd (by simpa using hx) (fun hss : s.source_url = i.binged_url => hne hss.symm)
        rw [hbe2]
        simp only [Bool.false_eq_true, if_false]
        rw [upsert_skip comm mt rest i s hbe']
    · have hcond' : (comm.any fun c => c.source_url == i.binged_url) = false := by
        cases hx : comm.any fun c => c.source_url == i.binged_url
        · rfl
        · exact absurd hx hcond
      have hstep : (save_raw_step comm mt st i).live = st.live := by
        simp only [save_raw_step, hcond', Bool.false_eq_true, if_false]
      rw [hstep]
      apply List.map_congr_left
      intro s _
      by_cases hbe : (i.binged_url == s.source_url) = true
      · have heq : i.binged_url = s.source_url := by simpa using hbe
        rw [upsert_hit comm mt rest i s heq, if_neg (by rw [hcond']; exact Bool.false_ne_true)]
        refine upsert_none comm mt rest s (fun j hj => ?_)
        have hne2 : j.binged_url ≠ s.source_url := by
          rw [← heq]
          exact fun hx => (hhead j hj) hx.symm
        cases hx : j.binged_url == s.source_url
        · rfl
        · exact absurd (by simpa using hx) hne2
      · have hbe' : (i.binged_url == s.source_url) = false := by
          cases hx : i.binged_url == s.source_url
          · rfl
          · exact absurd hx hbe
        rw [upsert_skip comm mt rest i s hbe']

end MediaCatalog

namespace MediaCatalog

/-- C5 (amended): buffer upsert semantics.  For a batch of listings
with pairwise-distinct source urls: `activityCount` equals the number
of listings (updates and inserts both count); a listing whose url
already has a BufferedRecord overwrites ONLY that record's payload
(`raw_data`) and resets its status to PENDING — its title, year,
platform and streaming date keep their existing values (contrary to the
unamended claim, refuted by `c5_counterexample`); and a listing with no
existing record inserts a new PENDING record carrying the listing's
fields. -/
theorem c5_buffer_upsert_amended (db : DB) (items : List ListingItem) (mt : MediaType)
    (hdist : items.Pairwise (fun a b => a.binged_url ≠ b.binged_url)) :
    (save_raw_batch db items mt).2 = items.length ∧
    ∃ added, (save_raw_batch db items mt).1.scraped
        = db.scraped.map (upsert_update db.scraped items mt) ++ added ∧
      ∀ i ∈ items, (db.scraped.any (fun c => c.source_url == i.binged_url)) = false →
        ∃ n ∈ added, n.source_url = i.binged_url ∧ n.title = i.title.getD "Unknown" ∧
          n.year = parse_safe_year i.year ∧ n.media_type = some mt.val ∧
          n.platform = some i.platform ∧ n.raw_data = some (blobOf mt i) ∧
          n.scrape_status = ScrapeStatus.pending ∧ n.error_message = none := by
  by_cases hi : items.isEmpty = true
  · have hnil : items = [] := by
      cases items with
      | nil => rfl
      | cons a l => exact absurd hi (by simp)
    subst hnil
    refine ⟨rfl, [], ?_, ?_⟩
    · show db.scraped = db.scraped.map (upsert_update db.scraped [] mt) ++ []
      rw [List.append_nil]
      have h : ∀ s ∈ db.scraped, upsert_update db.scraped [] mt s = s :=
        fun s _ => upsert_none _ _ [] s (fun j hj => absurd hj (List.not_mem_nil j))
      rw [List.map_congr_left h]
      simp
    · intro i hi2
      exact absurd hi2 (List.not_mem_nil i)
  · have hi' : items.isEmpty = false := by
      cases hx : items.isEmpty
      · rfl
      · exact absurd hx hi
    constructor
    · simp only [save_raw_batch, hi', Bool.false_eq_true, if_false]
      rw [save_fold_activity]
      simp
    · refine ⟨(items.foldl (save_raw_step db.scraped mt)
        ⟨db.scraped, [], maxSid db.scraped + 1, 0⟩).added, ?_, ?_⟩
      · simp only [save_raw_batch, hi', Bool.false_eq_true, if_false]
        rw [save_fold_live db.scraped mt items _ hdist]
      · intro i hmem hcond
        exact save_fold_added_mem db.scraped mt items _ i hmem hcond

/-- Witness for C5 (amended) on a batch of two listings: one
re-scraping url `"u"` (pre-existing row), one for the fresh url
`"v"`. -/
theorem c5_buffer_upsert_amended_witness :
    (save_raw_batch ⟨[exExistingRec], []⟩ [exNewListing, exFreshListing] MediaType.movie).2
      = 2 ∧
    ∃ added, (save_raw_batch ⟨[exExistingRec], []⟩ [exNewListing, exFreshListing]
          MediaType.movie).1.scraped
        = [exExistingRec].map
            (upsert_update [exExistingRec] [exNewListing, exFreshListing] MediaType.movie)
          ++ added ∧
      ∀ i ∈ [exNewListing, exFreshListing],
        (([exExistingRec] : List ScrapedItem).any
          (fun c => c.source_url == i.binged_url)) = false →
        ∃ n ∈ added, n.source_url = i.binged_url ∧ n.title = i.title.getD "Unknown" ∧
          n.year = parse_safe_year i.year ∧ n.media_type = some MediaType.movie.val ∧
          n.platform = some i.platform ∧ n.raw_data = some (blobOf MediaType.movie i) ∧
          n.scrape_status = ScrapeStatus.pending ∧ n.error_message = none := by
  exact c5_buffer_upsert_amended ⟨[exExistingRec], []⟩ [exNewListing, exFreshListing]
    MediaType.movie (by decide)

end MediaCatalog
